import Mathlib

/-!
# Tool modes and the tool cursor of cornerstoneTools

A shallow embedding of `src/store/setToolMode.js` and `src/store/setToolCursor.js`.

* The shared `state` object of `store/index.js` becomes a `Store`: the list
  `state.tools`, the list `state.enabledElements`, and a log of the effects
  the code emits on its host (console lines, tool callbacks, dispatched events).
* DOM elements are compared with `===` only, so an element is a `Nat` identity.
* A tool object is a `Tool` record. Tool objects are held by reference in
  JavaScript; a write through a reference returned by `getToolForElement`
  is a write to the first tool of `state.tools` with that element and name
  (`updateTool`), and a read through it is `deref`.
* Option values are the primitives `undefined`, `null`, booleans and integer
  numbers (button masks are integer bit masks); `===` on them is equality.
* Tool callbacks and event listeners are host code: a call is recorded in the
  log and does not touch the registry.
-/

namespace CornerstoneTools

/-- A primitive JavaScript value, as stored under an option key. -/
inductive Prim where
  | undefined
  | null
  | bool (b : Bool)
  | num (n : Int)
  deriving DecidableEq, Repr

/-- JavaScript truthiness: `undefined`, `null`, `false` and `0` are falsy. -/
def Prim.truthy : Prim → Bool
  | .bool b => b
  | .num n => decide (n ≠ 0)
  | _ => false

/-- The comparison `v > 0`, after `ToNumber`: `undefined` is `NaN`, `null` is `0`,
`true` is `1`, `false` is `0`. -/
def Prim.gtZero : Prim → Bool
  | .bool b => b
  | .num n => decide (0 < n)
  | _ => false

/-- The test `typeof v === 'boolean'`. -/
def Prim.isBoolean : Prim → Bool
  | .bool _ => true
  | _ => false

/-- The expression `a || b`. -/
def Prim.or (a b : Prim) : Prim :=
  if a.truthy then a else b

/-- A plain JavaScript object: its own properties, `none` for a key it lacks. -/
abbrev Obj := String → Option Prim

/-- The object literal `{}`. -/
def Obj.empty : Obj := fun _ => none

/-- The property read `o.k`: `undefined` when the key is missing. -/
def Obj.get (o : Obj) (k : String) : Prim :=
  (o k).getD Prim.undefined

/-- The property write `o.k = v`. -/
def Obj.set (o : Obj) (k : String) (v : Prim) : Obj :=
  fun key => if key = k then some v else o key

/-- The call `Object.assign({}, target, source)`: every own property of `source`
(also one whose value is `undefined`) overrides the one of `target`. -/
def Obj.assign (target source : Obj) : Obj :=
  fun key => match source key with
    | some v => some v
    | none => target key

/-- An object literal `{k1: v1, k2: v2, ...}`. -/
def Obj.ofList (kvs : List (String × Prim)) : Obj :=
  kvs.foldl (fun o kv => Obj.set o kv.1 kv.2) Obj.empty

/-- The four tool modes. -/
inductive Mode where
  | active
  | passive
  | enabled
  | disabled
  deriving DecidableEq, Repr

/-- A tool instance of `state.tools`. The four Boolean fields say whether the
tool object carries the hook `activeCallback`, `passiveCallback`, ... -/
structure Tool where
  element : Nat
  name : String
  mode : Mode
  options : Obj
  activeCallback : Bool
  passiveCallback : Bool
  enabledCallback : Bool
  disabledCallback : Bool

/-- The test `tool[mode + 'Callback']` of `setToolModeForElement`. -/
def Tool.hasCallback (t : Tool) : Mode → Bool
  | .active => t.activeCallback
  | .passive => t.passiveCallback
  | .enabled => t.enabledCallback
  | .disabled => t.disabledCallback

/-- The `statusChangeEventData` object handed to `triggerEvent`. -/
structure EventData where
  options : Obj
  toolName : String
  type : String

/-- An effect on the host. -/
inductive Effect where
  /-- The line `console.warn("Unable to find tool 'toolName' for enabledElement")`. -/
  | warn (toolName : String)
  /-- The line `console.info("Setting tool toolName to passive")`. -/
  | info (toolName : String)
  /-- The call `tool[mode + 'Callback'](element, options)`. -/
  | callback (element : Nat) (toolName : String) (mode : Mode) (options : Obj)
  /-- The call `triggerEvent(element, type, data)`. -/
  | event (element : Nat) (type : String) (data : EventData)

/-- The store: `state.tools`, `state.enabledElements`, and the effects emitted
so far, oldest first. -/
structure Store where
  tools : List Tool
  enabledElements : List Nat
  log : List Effect

/-- The `options` argument of the public operations: a number, an object,
`null` or `undefined`. -/
inductive Options where
  | num (n : Int)
  | obj (o : Obj)
  | null
  | undefined

/-- An exception raised by the JavaScript run time. -/
inductive JSError where
  | typeError
  deriving DecidableEq, Repr

/-- The test `typeof options === 'number'`. -/
def Options.isNumber : Options → Bool
  | .num _ => true
  | _ => false

/-- The test `typeof options === 'object'`; `typeof null` is `'object'`. -/
def Options.isObject : Options → Bool
  | .obj _ => true
  | .null => true
  | _ => false

/-- The property read `options.k`: a `TypeError` on `null` and `undefined`,
`undefined` on a number. -/
def Options.getProp (options : Options) (k : String) : Except JSError Prim :=
  match options with
  | .obj o => .ok (Obj.get o k)
  | .num _ => .ok Prim.undefined
  | .null => .error JSError.typeError
  | .undefined => .error JSError.typeError

/-- Modelled from the spec: `events.js` is not among the sources; the constant
`EVENTS.TOOL_DEACTIVATED` is the (non-empty) type string of the event that
announces a tool leaving the active mode. -/
def EVENTS.TOOL_DEACTIVATED : String := "cornerstonetoolstooldeactivated"

/-- Modelled from the spec: `getToolForElement.js` is not among the sources; it
returns the tool of `state.tools` registered on `element` under `name`,
`undefined` (here `none`) when there is none. -/
def getToolForElement (s : Store) (element : Nat) (name : String) : Option Tool :=
  s.tools.find? (fun tool => decide (tool.element = element ∧ tool.name = name))

/-- A write through the reference `getToolForElement(element, toolName)`:
the first tool with that element and name is replaced by its image. -/
def updateTool (element : Nat) (toolName : String) (f : Tool → Tool) :
    List Tool → List Tool
  | [] => []
  | t :: ts =>
    if t.element = element ∧ t.name = toolName then f t :: ts
    else t :: updateTool element toolName f ts

/-- A read through a reference to a tool object: the record the store holds
for it now. -/
def deref (s : Store) (tool : Tool) : Tool :=
  (getToolForElement s tool.element tool.name).getD tool

/-- The two writes `tool.mode = mode` and
`tool.options = Object.assign({}, tool.options, options)`. -/
def applyMode (mode : Mode) (options : Obj) (tool : Tool) : Tool :=
  { tool with mode := mode, options := Obj.assign tool.options options }

/-- The options object `setToolModeForElement` works with after its first
branch: a number `n` becomes `{mouseButtonMask: n}`, with `isTouchActive`
added when that argument is `true` or `false`; an object stays; `null` and
`undefined` become `{}`. -/
def normalizeOptions (options : Options) (isTouchActive : Prim) : Obj :=
  match options with
  | .num n =>
    let o := Obj.set Obj.empty "mouseButtonMask" (Prim.num n)
    if isTouchActive = Prim.bool true ∨ isTouchActive = Prim.bool false then
      Obj.set o "isTouchActive" (Prim.bool (decide (isTouchActive = Prim.bool true)))
    else o
  | .obj o => o
  | .null => Obj.empty
  | .undefined => Obj.empty

/-- The function `setToolModeForElement(mode, changeEvent, element, toolName,
options, isTouchActive)`; `changeEvent` is `none` for `null`. -/
def setToolModeForElement (mode : Mode) (changeEvent : Option String) (element : Nat)
    (toolName : String) (options : Options) (isTouchActive : Prim) (s : Store) : Store :=
  match getToolForElement s element toolName with
  | none => { s with log := s.log ++ [Effect.warn toolName] }
  | some tool =>
    let options := normalizeOptions options isTouchActive
    let tools := updateTool element toolName (applyMode mode options) s.tools
    let called :=
      if tool.hasCallback mode then [Effect.callback element toolName mode options] else []
    let emitted :=
      match changeEvent with
      | some ev =>
        if ev ≠ "" then
          [Effect.event element ev { options := options, toolName := toolName, type := ev }]
        else []
      | none => []
    { s with tools := tools, log := s.log ++ called ++ emitted }

/-- The binding `setToolModeForElement.bind(null, 'disabled', null)`. -/
def setToolDisabledForElement (element : Nat) (toolName : String) (options : Options)
    (isTouchActive : Prim) (s : Store) : Store :=
  setToolModeForElement Mode.disabled none element toolName options isTouchActive s

/-- The binding `setToolModeForElement.bind(null, 'enabled', null)`. -/
def setToolEnabledForElement (element : Nat) (toolName : String) (options : Options)
    (isTouchActive : Prim) (s : Store) : Store :=
  setToolModeForElement Mode.enabled none element toolName options isTouchActive s

/-- The binding `setToolModeForElement.bind(null, 'passive', EVENTS.TOOL_DEACTIVATED)`. -/
def setToolPassiveForElement (element : Nat) (toolName : String) (options : Options)
    (isTouchActive : Prim) (s : Store) : Store :=
  setToolModeForElement Mode.passive (some EVENTS.TOOL_DEACTIVATED) element toolName
    options isTouchActive s

/-- The callback of `state.tools.find` in
`_setActiveToolWithMatchingMouseButtonMaskToPassive`: the tool is on `element`,
in mode `active`, and its `options.mouseButtonMask` is `=== mouseButtonMask`. -/
def holdsMask (element : Nat) (mouseButtonMask : Prim) (tool : Tool) : Bool :=
  decide (tool.element = element ∧ tool.mode = Mode.active ∧
    Obj.get tool.options "mouseButtonMask" = mouseButtonMask)

/-- The callback of `state.tools.find` in `_setActiveToolWithIsTouchActiveToPassive`:
the tool is on `element`, in mode `active`, and its `options.isTouchActive` is
`=== true`. -/
def holdsTouch (element : Nat) (tool : Tool) : Bool :=
  decide (tool.element = element ∧ tool.mode = Mode.active ∧
    Obj.get tool.options "isTouchActive" = Prim.bool true)

/-- The function `_setActiveToolWithMatchingMouseButtonMaskToPassive(tool, element,
options)`. -/
def _setActiveToolWithMatchingMouseButtonMaskToPassive (tool : Tool) (element : Nat)
    (options : Options) (s : Store) : Except JSError Store :=
  match (match options with
    | .num n => Except.ok (Prim.num n)
    | o => o.getProp "mouseButtonMask") with
  | .error e => .error e
  | .ok supplied =>
    let mouseButtonMask := Prim.or supplied (Obj.get tool.options "mouseButtonMask")
    let hasMouseButtonMask := decide (mouseButtonMask ≠ Prim.undefined) && mouseButtonMask.gtZero
    let activeToolWithMatchingMouseButtonMask :=
      s.tools.find? (holdsMask element mouseButtonMask)
    match activeToolWithMatchingMouseButtonMask with
    | some found =>
      if hasMouseButtonMask then
        .ok (setToolPassiveForElement element found.name Options.undefined Prim.undefined
          { s with log := s.log ++ [Effect.info found.name] })
      else .ok s
    | none => .ok s

/-- The function `_setActiveToolWithIsTouchActiveToPassive(tool, element, options,
isTouchActive)`. -/
def _setActiveToolWithIsTouchActiveToPassive (tool : Tool) (element : Nat)
    (options : Options) (isTouchActive : Prim) (s : Store) : Except JSError Store :=
  match (if options.isNumber && isTouchActive.isBoolean then
      Except.ok (Prim.bool (decide (isTouchActive = Prim.bool true)))
    else if options.isObject then
      match options.getProp "isTouchActive" with
      | .error e => .error e
      | .ok v =>
        if v.isBoolean then .ok (Prim.bool (decide (v = Prim.bool true)))
        else .ok (Obj.get tool.options "isTouchActive")
    else .ok (Obj.get tool.options "isTouchActive")) with
  | .error e => .error e
  | .ok value =>
    let activeToolWithIsTouchActive :=
      if value.isBoolean && decide (value = Prim.bool true) then
        s.tools.find? (holdsTouch element)
      else none
    match activeToolWithIsTouchActive with
    | some found =>
      .ok (setToolPassiveForElement element found.name Options.undefined Prim.undefined s)
    | none => .ok s

/-- The function `setToolActiveForElement(element, toolName, options, isTouchActive)`. -/
def setToolActiveForElement (element : Nat) (toolName : String) (options : Options)
    (isTouchActive : Prim) (s : Store) : Except JSError Store :=
  match getToolForElement s element toolName with
  | some tool =>
    match _setActiveToolWithMatchingMouseButtonMaskToPassive tool element options s with
    | .error e => .error e
    | .ok s1 =>
      match _setActiveToolWithIsTouchActiveToPassive (deref s1 tool) element options
          isTouchActive s1 with
      | .error e => .error e
      | .ok s2 =>
        .ok (setToolModeForElement Mode.active none element toolName options isTouchActive s2)
  | none =>
    .ok (setToolModeForElement Mode.active none element toolName options isTouchActive s)

/-- The function `setToolMode(mode, changeEvent, toolName, options, isTouchActive)`:
a `forEach` over `state.enabledElements`. -/
def setToolMode (mode : Mode) (changeEvent : Option String) (toolName : String)
    (options : Options) (isTouchActive : Prim) (s : Store) : Store :=
  s.enabledElements.foldl
    (fun acc element =>
      setToolModeForElement mode changeEvent element toolName options isTouchActive acc) s

/-- The function `setToolActive(toolName, options, isTouchActive)`: a `forEach`
over `state.enabledElements`; an exception ends the loop. -/
def setToolActive (toolName : String) (options : Options) (isTouchActive : Prim)
    (s : Store) : Except JSError Store :=
  s.enabledElements.foldlM
    (fun acc element => setToolActiveForElement element toolName options isTouchActive acc) s

/-- The binding `setToolMode.bind(null, 'disabled', null)`. -/
def setToolDisabled (toolName : String) (options : Options) (isTouchActive : Prim)
    (s : Store) : Store :=
  setToolMode Mode.disabled none toolName options isTouchActive s

/-- The binding `setToolMode.bind(null, 'enabled', null)`. -/
def setToolEnabled (toolName : String) (options : Options) (isTouchActive : Prim)
    (s : Store) : Store :=
  setToolMode Mode.enabled none toolName options isTouchActive s

/-- The binding `setToolMode.bind(null, 'passive', EVENTS.TOOL_DEACTIVATED)`. -/
def setToolPassive (toolName : String) (options : Options) (isTouchActive : Prim)
    (s : Store) : Store :=
  setToolMode Mode.passive (some EVENTS.TOOL_DEACTIVATED) toolName options isTouchActive s

/-- The callback calls recorded in a log. -/
def calledBack (log : List Effect) : List Effect :=
  log.filter (fun x => match x with
    | .callback _ _ _ _ => true
    | _ => false)

/-- The events dispatched with `triggerEvent` recorded in a log. -/
def dispatched (log : List Effect) : List Effect :=
  log.filter (fun x => match x with
    | .event _ _ _ => true
    | _ => false)

/-- The `options` argument is a number or an object (not `null`, not `undefined`). -/
def Options.isNumberOrObject : Options → Bool
  | .num _ => true
  | .obj _ => true
  | _ => false

/-- Tool names are unique per element: no two tools of `state.tools` share
both element and name. -/
def UniqueNames (s : Store) : Prop :=
  s.tools.Pairwise (fun a b => ¬ (a.element = b.element ∧ a.name = b.name))

/-- The value of `state.svgCursorUrl`. -/
inductive UrlSlot where
  | undefined
  | null
  | url (u : String)
  deriving DecidableEq, Repr

/-- JavaScript truthiness of `state.svgCursorUrl`: a non-empty string. -/
def UrlSlot.truthy : UrlSlot → Bool
  | .url u => decide (u ≠ "")
  | _ => false

/-- What `setToolCursor.js` reads and writes: `state.svgCursorUrl`, the
`style.cursor` of every element, and the URLs handed to
`window.URL.revokeObjectURL`, oldest first. -/
structure CursorState where
  svgCursorUrl : UrlSlot
  cursor : Nat → String
  revoked : List String

/-- The function `_clearStateAndSetCursor(element, cursorSeting)`. -/
def _clearStateAndSetCursor (element : Nat) (cursorSeting : String) (c : CursorState) :
    CursorState :=
  { svgCursorUrl := UrlSlot.null
    cursor := fun e => if e = element then cursorSeting else c.cursor e
    revoked :=
      match c.svgCursorUrl with
      | .url u => if c.svgCursorUrl.truthy then c.revoked ++ [u] else c.revoked
      | _ => c.revoked }

/-- The function `resetCursor(element)`. -/
def resetCursor (element : Nat) (c : CursorState) : CursorState :=
  _clearStateAndSetCursor element "initial" c

/-- The function `hideCursor(element)`. -/
def hideCursor (element : Nat) (c : CursorState) : CursorState :=
  _clearStateAndSetCursor element "none" c

/-- The step from `s` to `s'` left the registry alone: the same tools (so the
mode and options of each), the same enabled elements, no callback call and no
dispatched event added. -/
def NoOp (s s' : Store) : Prop :=
  s'.tools = s.tools ∧ s'.enabledElements = s.enabledElements ∧
    calledBack s'.log = calledBack s.log ∧ dispatched s'.log = dispatched s.log

/-- A tool without hooks, for the concrete stores below. -/
def sampleTool (element : Nat) (name : String) (mode : Mode) (options : Obj) : Tool :=
  { element := element, name := name, mode := mode, options := options,
    activeCallback := false, passiveCallback := false, enabledCallback := false,
    disabledCallback := false }

/-- A store with one passive tool `Length` on element 0, holding mouse button mask 1. -/
def oneToolStore : Store :=
  { tools := [sampleTool 0 "Length" Mode.passive (Obj.ofList [("mouseButtonMask", Prim.num 1)])]
    enabledElements := [0]
    log := [] }

/-- The store `s1` is `s` after at most one internal call
`setToolPassiveForElement(element, name)` (and some console output). -/
def DemotionOf (element : Nat) (s s1 : Store) : Prop :=
  s1 = s ∨ ∃ name lg, s1 = setToolPassiveForElement element name Options.undefined
    Prim.undefined { s with log := lg }

/-- The mask both demotion and activation turn on, for options that are a
number or an object:
`(typeof options === 'number' ? options : options.mouseButtonMask) || tool.options.mouseButtonMask`. -/
def wantedMask (tool : Tool) (options : Options) : Prim :=
  Prim.or
    (match options with
      | .num n => Prim.num n
      | .obj o => Obj.get o "mouseButtonMask"
      | _ => Prim.undefined)
    (Obj.get tool.options "mouseButtonMask")

/-- The `value` of `_setActiveToolWithIsTouchActiveToPassive`, for options that
are a number or an object. -/
def wantedTouch (tool : Tool) (options : Options) (isTouchActive : Prim) : Prim :=
  match options with
  | .num _ =>
    if isTouchActive.isBoolean then Prim.bool (decide (isTouchActive = Prim.bool true))
    else Obj.get tool.options "isTouchActive"
  | .obj o =>
    if (Obj.get o "isTouchActive").isBoolean then
      Prim.bool (decide (Obj.get o "isTouchActive" = Prim.bool true))
    else Obj.get tool.options "isTouchActive"
  | _ => Obj.get tool.options "isTouchActive"

/-- A store whose element 0 holds two active tools with mouse button mask 1,
`Wwwc` before `Length` in `state.tools`. -/
def twoHoldersStore : Store :=
  { tools := [sampleTool 0 "Wwwc" Mode.active (Obj.ofList [("mouseButtonMask", Prim.num 1)]),
      sampleTool 0 "Length" Mode.active (Obj.ofList [("mouseButtonMask", Prim.num 1)])]
    enabledElements := [0]
    log := [] }

/-- A store whose element 0 holds the active tool `Length` with mouse button
mask 1 and the passive tool `Wwwc`. -/
def holderStore : Store :=
  { tools := [sampleTool 0 "Wwwc" Mode.passive (Obj.ofList [("mouseButtonMask", Prim.num 1)]),
      sampleTool 0 "Length" Mode.active (Obj.ofList [("mouseButtonMask", Prim.num 1)])]
    enabledElements := [0]
    log := [] }

/-- The store after `setToolActiveForElement`, the store itself when the call
raises. -/
def activeOrSame (element : Nat) (toolName : String) (options : Options)
    (isTouchActive : Prim) (s : Store) : Store :=
  match setToolActiveForElement element toolName options isTouchActive s with
  | .ok s' => s'
  | .error _ => s

/-- Two enabled elements; `Length` is registered on the first only. -/
def twoElementStore : Store :=
  { tools := [sampleTool 0 "Length" Mode.passive (Obj.ofList [("mouseButtonMask", Prim.num 1)]),
      sampleTool 1 "Wwwc" Mode.active (Obj.ofList [("mouseButtonMask", Prim.num 1)])]
    enabledElements := [1, 0]
    log := [] }

/-- The value is a number `m > 0`. -/
def Prim.isPositiveNumber : Prim → Bool
  | .num n => decide (0 < n)
  | _ => false

/-- Two tools on one element are both active with the same mouse button mask,
a number `m > 0`. -/
def maskClash (a b : Tool) : Prop :=
  a.element = b.element ∧ a.mode = Mode.active ∧ b.mode = Mode.active ∧
    (Obj.get a.options "mouseButtonMask").isPositiveNumber = true ∧
    Obj.get a.options "mouseButtonMask" = Obj.get b.options "mouseButtonMask"

/-- Two tools on one element are both active with `options.isTouchActive` equal
to `true`. -/
def touchClash (a b : Tool) : Prop :=
  a.element = b.element ∧ a.mode = Mode.active ∧ b.mode = Mode.active ∧
    Obj.get a.options "isTouchActive" = Prim.bool true ∧
    Obj.get b.options "isTouchActive" = Prim.bool true

/-- Mutual exclusion: on every element, for every mask `m > 0`, at most one
tool is active with `options.mouseButtonMask` equal to `m`, and at most one
tool is active with `options.isTouchActive` equal to `true`: no two entries of
`state.tools` clash. -/
def MutualExclusion (s : Store) : Prop :=
  s.tools.Pairwise (fun a b => ¬ maskClash a b) ∧
    s.tools.Pairwise (fun a b => ¬ touchClash a b)

/-- Mutual exclusion stated on members: two clashing tools of `state.tools`
carry the same name. -/
def Excl (s : Store) : Prop :=
  (∀ a ∈ s.tools, ∀ b ∈ s.tools, maskClash a b → a.name = b.name) ∧
    (∀ a ∈ s.tools, ∀ b ∈ s.tools, touchClash a b → a.name = b.name)

/-- The tool `t'` is the tool `t` demoted: `t` was active, and `t'` is `t` in
mode `passive`, everything else (its options too) as before. -/
def Demoted (t t' : Tool) : Prop :=
  t.mode = Mode.active ∧ t' = { t with mode := Mode.passive }

/-- A demotion of a tool on `element` named `x`, or no change. -/
def DemotedNamed (element : Nat) (x : String) (t t' : Tool) : Prop :=
  t' = t ∨ (t.element = element ∧ t.name = x ∧ Demoted t t')

/-- A store with two tools named `Length` on element 0, the first enabled, the
second active with mouse button mask 1, and a passive tool `Wwwc`. -/
def duplicateNameStore : Store :=
  { tools := [sampleTool 0 "Length" Mode.enabled (Obj.ofList [("mouseButtonMask", Prim.num 1)]),
      sampleTool 0 "Length" Mode.active (Obj.ofList [("mouseButtonMask", Prim.num 1)]),
      sampleTool 0 "Wwwc" Mode.passive Obj.empty]
    enabledElements := [0]
    log := [] }

/-! ## Objects and lookups -/

theorem Obj.assign_empty (o : Obj) : Obj.assign o Obj.empty = o := rfl

theorem Obj.assign_apply (t o : Obj) (k : String) :
    Obj.assign t o k = (o k).orElse (fun _ => t k) := by
  unfold Obj.assign
  cases o k <;> rfl

theorem applyMode_element (m : Mode) (o : Obj) (t : Tool) :
    (applyMode m o t).element = t.element := rfl

theorem applyMode_name (m : Mode) (o : Obj) (t : Tool) :
    (applyMode m o t).name = t.name := rfl

theorem find_updateTool (e : Nat) (n : String) (f : Tool → Tool)
    (hf : ∀ t, (f t).element = t.element ∧ (f t).name = t.name)
    (e' : Nat) (n' : String) (ts : List Tool) :
    (updateTool e n f ts).find? (fun t => decide (t.element = e' ∧ t.name = n')) =
      if e' = e ∧ n' = n then
        (ts.find? (fun t => decide (t.element = e ∧ t.name = n))).map f
      else ts.find? (fun t => decide (t.element = e' ∧ t.name = n')) := by
  induction ts with
  | nil => simp [updateTool]
  | cons t ts ih =>
    unfold updateTool
    by_cases h : t.element = e ∧ t.name = n
    · rw [if_pos h]
      by_cases h' : e' = e ∧ n' = n
      · obtain ⟨rfl, rfl⟩ := h'
        have h1 : (f t).element = e' ∧ (f t).name = n' := by
          rw [(hf t).1, (hf t).2]; exact h
        simp [List.find?_cons, h, h1]
      · have h2 : ¬ (t.element = e' ∧ t.name = n') := by
          rintro ⟨h3, h4⟩
          exact h' ⟨h3 ▸ h.1, h4 ▸ h.2⟩
        have h1 : ¬ ((f t).element = e' ∧ (f t).name = n') := by
          rw [(hf t).1, (hf t).2]; exact h2
        rw [if_neg h', List.find?_cons, List.find?_cons]
        simp only [h1, h2, decide_False]
    · rw [if_neg h]
      by_cases h' : e' = e ∧ n' = n
      · obtain ⟨rfl, rfl⟩ := h'
        rw [if_pos ⟨rfl, rfl⟩] at ih ⊢
        rw [List.find?_cons, List.find?_cons]
        simp only [h, decide_False]
        exact ih
      · rw [if_neg h'] at ih ⊢
        rw [List.find?_cons, List.find?_cons, ih]

theorem updateTool_of_find_none (e : Nat) (n : String) (f : Tool → Tool) (ts : List Tool)
    (h : ts.find? (fun t => decide (t.element = e ∧ t.name = n)) = none) :
    updateTool e n f ts = ts := by
  induction ts with
  | nil => rfl
  | cons t ts ih =>
    rw [List.find?_cons] at h
    by_cases ht : t.element = e ∧ t.name = n
    · simp [ht] at h
    · simp only [ht, decide_False] at h
      unfold updateTool
      rw [if_neg ht, ih h]

theorem tools_setToolModeForElement (mode : Mode) (ev : Option String) (e : Nat)
    (n : String) (o : Options) (ita : Prim) (s : Store) :
    (setToolModeForElement mode ev e n o ita s).tools =
      updateTool e n (applyMode mode (normalizeOptions o ita)) s.tools := by
  unfold setToolModeForElement
  cases h : getToolForElement s e n with
  | none => exact (updateTool_of_find_none e n _ s.tools h).symm
  | some t => rfl

theorem enabledElements_setToolModeForElement (mode : Mode) (ev : Option String) (e : Nat)
    (n : String) (o : Options) (ita : Prim) (s : Store) :
    (setToolModeForElement mode ev e n o ita s).enabledElements = s.enabledElements := by
  unfold setToolModeForElement
  cases getToolForElement s e n <;> rfl

theorem getTool_setToolModeForElement (mode : Mode) (ev : Option String) (e : Nat)
    (n : String) (o : Options) (ita : Prim) (s : Store) (e' : Nat) (n' : String) :
    getToolForElement (setToolModeForElement mode ev e n o ita s) e' n' =
      if e' = e ∧ n' = n then
        (getToolForElement s e n).map (applyMode mode (normalizeOptions o ita))
      else getToolForElement s e' n' := by
  unfold getToolForElement
  rw [tools_setToolModeForElement]
  exact find_updateTool e n (applyMode mode (normalizeOptions o ita)) (fun t => ⟨rfl, rfl⟩) e' n' s.tools

theorem setToolModeForElement_of_none (mode : Mode) (ev : Option String) (e : Nat)
    (n : String) (o : Options) (ita : Prim) (s : Store)
    (h : getToolForElement s e n = none) :
    setToolModeForElement mode ev e n o ita s = { s with log := s.log ++ [Effect.warn n] } := by
  unfold setToolModeForElement
  rw [h]

theorem noOp_warn (s : Store) (n : String) :
    NoOp s { s with log := s.log ++ [Effect.warn n] } := by
  refine ⟨rfl, rfl, ?_, ?_⟩ <;> simp [calledBack, dispatched]

/-! ## Missing tool -/

/-- C2. When `getToolForElement(element, toolName)` finds no tool, each of the
four `...ForElement` operations returns normally (the active one does not
raise, whatever `options` is), leaves `state.tools` as it was, calls no tool
callback and dispatches no event. -/
theorem missing_tool_noop (s : Store) (e : Nat) (n : String) (o : Options) (ita : Prim)
    (h : getToolForElement s e n = none) :
    (∃ s', setToolActiveForElement e n o ita s = Except.ok s' ∧ NoOp s s') ∧
    NoOp s (setToolPassiveForElement e n o ita s) ∧
    NoOp s (setToolEnabledForElement e n o ita s) ∧
    NoOp s (setToolDisabledForElement e n o ita s) := by
  refine ⟨⟨_, ?_, noOp_warn s n⟩, ?_, ?_, ?_⟩
  · unfold setToolActiveForElement
    rw [h, setToolModeForElement_of_none _ _ _ _ _ _ _ h]
  · unfold setToolPassiveForElement
    rw [setToolModeForElement_of_none _ _ _ _ _ _ _ h]; exact noOp_warn s n
  · unfold setToolEnabledForElement
    rw [setToolModeForElement_of_none _ _ _ _ _ _ _ h]; exact noOp_warn s n
  · unfold setToolDisabledForElement
    rw [setToolModeForElement_of_none _ _ _ _ _ _ _ h]; exact noOp_warn s n

/-- C2, at a concrete store: no tool named `Length` on element 3, `options` undefined. -/
theorem missing_tool_noop_witness :
    (∃ s', setToolActiveForElement 3 "Length" Options.undefined Prim.undefined
        ⟨[], [3], []⟩ = Except.ok s' ∧ NoOp ⟨[], [3], []⟩ s') ∧
    NoOp ⟨[], [3], []⟩
      (setToolPassiveForElement 3 "Length" Options.undefined Prim.undefined ⟨[], [3], []⟩) ∧
    NoOp ⟨[], [3], []⟩
      (setToolEnabledForElement 3 "Length" Options.undefined Prim.undefined ⟨[], [3], []⟩) ∧
    NoOp ⟨[], [3], []⟩
      (setToolDisabledForElement 3 "Length" Options.undefined Prim.undefined ⟨[], [3], []⟩) :=
  missing_tool_noop ⟨[], [3], []⟩ 3 "Length" Options.undefined Prim.undefined rfl

/-! ## Events -/

theorem normalizeOptions_num_mask (k : Int) (ita : Prim) :
    Obj.get (normalizeOptions (Options.num k) ita) "mouseButtonMask" = Prim.num k := by
  unfold normalizeOptions
  by_cases h : ita = Prim.bool true ∨ ita = Prim.bool false
  · simp [h, Obj.get, Obj.set, Obj.empty]
  · simp [h, Obj.get, Obj.set, Obj.empty]

/-- C9. On a found tool, `setToolPassiveForElement` dispatches exactly one
event, on the given element, of type `EVENTS.TOOL_DEACTIVATED`, whose data
holds the normalised options, the given tool name and the type; a number `n`
normalises to an object whose `mouseButtonMask` is `n`, `null` and `undefined`
to `{}`, an object to itself. `setToolEnabledForElement` and
`setToolDisabledForElement` dispatch nothing. -/
theorem passive_dispatches_one_event (s : Store) (e : Nat) (n : String) (T : Tool)
    (o : Options) (ita : Prim) (h : getToolForElement s e n = some T) :
    dispatched (setToolPassiveForElement e n o ita s).log =
      dispatched s.log ++ [Effect.event e EVENTS.TOOL_DEACTIVATED
        { options := normalizeOptions o ita, toolName := n,
          type := EVENTS.TOOL_DEACTIVATED }] ∧
    dispatched (setToolEnabledForElement e n o ita s).log = dispatched s.log ∧
    dispatched (setToolDisabledForElement e n o ita s).log = dispatched s.log ∧
    (∀ k, Obj.get (normalizeOptions (Options.num k) ita) "mouseButtonMask" = Prim.num k) ∧
    normalizeOptions Options.null ita = Obj.empty ∧
    normalizeOptions Options.undefined ita = Obj.empty ∧
    (∀ ob, normalizeOptions (Options.obj ob) ita = ob) := by
  have hev : EVENTS.TOOL_DEACTIVATED ≠ "" := by decide
  refine ⟨?_, ?_, ?_, fun k => normalizeOptions_num_mask k ita, rfl, rfl, fun _ => rfl⟩
  · unfold setToolPassiveForElement setToolModeForElement
    rw [h]
    cases hc : T.hasCallback Mode.passive <;>
      simp [dispatched, List.filter_append, hev]
  · unfold setToolEnabledForElement setToolModeForElement
    rw [h]
    cases hc : T.hasCallback Mode.enabled <;> simp [dispatched, List.filter_append]
  · unfold setToolDisabledForElement setToolModeForElement
    rw [h]
    cases hc : T.hasCallback Mode.disabled <;> simp [dispatched, List.filter_append]

/-- C9, at the store `oneToolStore` with the numeric option 2. -/
theorem passive_dispatches_one_event_witness :
    dispatched (setToolPassiveForElement 0 "Length" (Options.num 2) Prim.undefined
        oneToolStore).log =
      dispatched oneToolStore.log ++ [Effect.event 0 EVENTS.TOOL_DEACTIVATED
        { options := normalizeOptions (Options.num 2) Prim.undefined, toolName := "Length",
          type := EVENTS.TOOL_DEACTIVATED }] ∧
    dispatched (setToolEnabledForElement 0 "Length" (Options.num 2) Prim.undefined
        oneToolStore).log = dispatched oneToolStore.log ∧
    dispatched (setToolDisabledForElement 0 "Length" (Options.num 2) Prim.undefined
        oneToolStore).log = dispatched oneToolStore.log ∧
    (∀ k, Obj.get (normalizeOptions (Options.num k) Prim.undefined) "mouseButtonMask" =
      Prim.num k) ∧
    normalizeOptions Options.null Prim.undefined = Obj.empty ∧
    normalizeOptions Options.undefined Prim.undefined = Obj.empty ∧
    (∀ ob, normalizeOptions (Options.obj ob) Prim.undefined = ob) :=
  passive_dispatches_one_event oneToolStore 0 "Length" _ (Options.num 2) Prim.undefined rfl

/-! ## The cursor -/

/-- C7. After `resetCursor(element)` the cursor style of the element is
`initial`, after `hideCursor(element)` it is `none`; `state.svgCursorUrl` is
`null` afterwards; the URL stored before the call is revoked (once) when one
was stored, and nothing is revoked when the slot was empty. -/
theorem cursor_reset_hide (c : CursorState) (e : Nat) :
    (resetCursor e c).cursor e = "initial" ∧ (hideCursor e c).cursor e = "none" ∧
    (resetCursor e c).svgCursorUrl = UrlSlot.null ∧
    (hideCursor e c).svgCursorUrl = UrlSlot.null ∧
    (∀ u, c.svgCursorUrl = UrlSlot.url u → u ≠ "" →
      (resetCursor e c).revoked = c.revoked ++ [u] ∧
      (hideCursor e c).revoked = c.revoked ++ [u]) ∧
    (c.svgCursorUrl.truthy = false →
      (resetCursor e c).revoked = c.revoked ∧ (hideCursor e c).revoked = c.revoked) := by
  refine ⟨by simp [resetCursor, _clearStateAndSetCursor],
    by simp [hideCursor, _clearStateAndSetCursor], rfl, rfl, ?_, ?_⟩
  · intro u hu hne
    simp [resetCursor, hideCursor, _clearStateAndSetCursor, hu, UrlSlot.truthy, hne]
  · intro ht
    obtain ⟨slot, cur, rev⟩ := c
    cases slot with
    | undefined => exact ⟨rfl, rfl⟩
    | null => exact ⟨rfl, rfl⟩
    | url u =>
      have ht' : (UrlSlot.url u).truthy = false := ht
      simp [resetCursor, hideCursor, _clearStateAndSetCursor, ht']

/-! ## The numeric shorthand -/

theorem normalizeOptions_num_bool (k : Int) (b : Bool) (ita : Prim) :
    normalizeOptions (Options.num k) (Prim.bool b) =
      normalizeOptions (Options.obj
        (Obj.ofList [("mouseButtonMask", Prim.num k), ("isTouchActive", Prim.bool b)])) ita := by
  funext key
  cases b <;> simp [normalizeOptions, Obj.ofList, Obj.set]

theorem normalizeOptions_num_other (k : Int) (ita : Prim) (h : ita.isBoolean = false)
    (ita' : Prim) :
    normalizeOptions (Options.num k) ita =
      normalizeOptions (Options.obj (Obj.ofList [("mouseButtonMask", Prim.num k)])) ita' := by
  funext key
  cases ita with
  | bool b => simp [Prim.isBoolean] at h
  | undefined => simp [normalizeOptions, Obj.ofList, Obj.set]
  | null => simp [normalizeOptions, Obj.ofList, Obj.set]
  | num x => simp [normalizeOptions, Obj.ofList, Obj.set]

theorem setToolModeForElement_congr (mode : Mode) (ev : Option String) (e : Nat)
    (n : String) (o o' : Options) (ita ita' : Prim) (s : Store)
    (h : normalizeOptions o ita = normalizeOptions o' ita') :
    setToolModeForElement mode ev e n o ita s = setToolModeForElement mode ev e n o' ita' s := by
  unfold setToolModeForElement
  rw [h]

theorem mask_helper_num_bool (tool : Tool) (e : Nat) (k : Int) (b : Bool) (s : Store) :
    _setActiveToolWithMatchingMouseButtonMaskToPassive tool e (Options.num k) s =
      _setActiveToolWithMatchingMouseButtonMaskToPassive tool e (Options.obj
        (Obj.ofList [("mouseButtonMask", Prim.num k), ("isTouchActive", Prim.bool b)])) s := by
  have h : Obj.get (Obj.ofList [("mouseButtonMask", Prim.num k), ("isTouchActive", Prim.bool b)])
      "mouseButtonMask" = Prim.num k := by
    simp [Obj.get, Obj.ofList, Obj.set]
  unfold _setActiveToolWithMatchingMouseButtonMaskToPassive
  simp only [Options.getProp, h]

theorem mask_helper_num_other (tool : Tool) (e : Nat) (k : Int) (s : Store) :
    _setActiveToolWithMatchingMouseButtonMaskToPassive tool e (Options.num k) s =
      _setActiveToolWithMatchingMouseButtonMaskToPassive tool e (Options.obj
        (Obj.ofList [("mouseButtonMask", Prim.num k)])) s := by
  have h : Obj.get (Obj.ofList [("mouseButtonMask", Prim.num k)])
      "mouseButtonMask" = Prim.num k := by
    simp [Obj.get, Obj.ofList, Obj.set]
  unfold _setActiveToolWithMatchingMouseButtonMaskToPassive
  simp only [Options.getProp, h]

theorem touch_helper_num_bool (tool : Tool) (e : Nat) (k : Int) (b : Bool) (ita : Prim)
    (s : Store) :
    _setActiveToolWithIsTouchActiveToPassive tool e (Options.num k) (Prim.bool b) s =
      _setActiveToolWithIsTouchActiveToPassive tool e (Options.obj
        (Obj.ofList [("mouseButtonMask", Prim.num k), ("isTouchActive", Prim.bool b)])) ita s := by
  have h : Obj.get (Obj.ofList [("mouseButtonMask", Prim.num k), ("isTouchActive", Prim.bool b)])
      "isTouchActive" = Prim.bool b := by
    simp [Obj.get, Obj.ofList, Obj.set]
  unfold _setActiveToolWithIsTouchActiveToPassive
  simp only [Options.getProp, h, Options.isNumber, Options.isObject, Prim.isBoolean,
    Bool.and_self, Bool.false_and, if_true, Bool.false_eq_true, if_false]

theorem touch_helper_num_other (tool : Tool) (e : Nat) (k : Int) (ita ita' : Prim)
    (hb : ita.isBoolean = false) (s : Store) :
    _setActiveToolWithIsTouchActiveToPassive tool e (Options.num k) ita s =
      _setActiveToolWithIsTouchActiveToPassive tool e (Options.obj
        (Obj.ofList [("mouseButtonMask", Prim.num k)])) ita' s := by
  have h : Obj.get (Obj.ofList [("mouseButtonMask", Prim.num k)])
      "isTouchActive" = Prim.undefined := by
    simp [Obj.get, Obj.ofList, Obj.set, Obj.empty]
  have hu : Prim.isBoolean Prim.undefined = false := rfl
  unfold _setActiveToolWithIsTouchActiveToPassive
  simp only [Options.getProp, h, hb, hu, Options.isNumber, Options.isObject,
    Bool.and_false, Bool.false_and, if_true, Bool.false_eq_true, if_false]

/-- C5. The numeric shorthand is the object form: called with the number `k`
and the boolean `b`, each of the four `...ForElement` operations yields the
same store (every tool, every logged callback and dispatched event) as
called with `{mouseButtonMask: k, isTouchActive: b}` and any fourth
argument; and when the fourth argument is not a boolean, the call with `k`
yields the same as the call with `{mouseButtonMask: k}`. For
`setToolActiveForElement` the equality covers the demotions. -/
theorem numeric_shorthand_is_object_form (s : Store) (e : Nat) (n : String) (k : Int)
    (b : Bool) :
    (∀ ita, setToolActiveForElement e n (Options.num k) (Prim.bool b) s =
      setToolActiveForElement e n (Options.obj
        (Obj.ofList [("mouseButtonMask", Prim.num k), ("isTouchActive", Prim.bool b)])) ita s) ∧
    (∀ ita, setToolPassiveForElement e n (Options.num k) (Prim.bool b) s =
      setToolPassiveForElement e n (Options.obj
        (Obj.ofList [("mouseButtonMask", Prim.num k), ("isTouchActive", Prim.bool b)])) ita s) ∧
    (∀ ita, setToolEnabledForElement e n (Options.num k) (Prim.bool b) s =
      setToolEnabledForElement e n (Options.obj
        (Obj.ofList [("mouseButtonMask", Prim.num k), ("isTouchActive", Prim.bool b)])) ita s) ∧
    (∀ ita, setToolDisabledForElement e n (Options.num k) (Prim.bool b) s =
      setToolDisabledForElement e n (Options.obj
        (Obj.ofList [("mouseButtonMask", Prim.num k), ("isTouchActive", Prim.bool b)])) ita s) ∧
    (∀ ita ita', ita.isBoolean = false →
      setToolActiveForElement e n (Options.num k) ita s =
        setToolActiveForElement e n (Options.obj
          (Obj.ofList [("mouseButtonMask", Prim.num k)])) ita' s ∧
      setToolPassiveForElement e n (Options.num k) ita s =
        setToolPassiveForElement e n (Options.obj
          (Obj.ofList [("mouseButtonMask", Prim.num k)])) ita' s ∧
      setToolEnabledForElement e n (Options.num k) ita s =
        setToolEnabledForElement e n (Options.obj
          (Obj.ofList [("mouseButtonMask", Prim.num k)])) ita' s ∧
      setToolDisabledForElement e n (Options.num k) ita s =
        setToolDisabledForElement e n (Options.obj
          (Obj.ofList [("mouseButtonMask", Prim.num k)])) ita' s) := by
  refine ⟨fun ita => ?_, fun ita => ?_, fun ita => ?_, fun ita => ?_, fun ita ita' hb => ?_⟩
  · unfold setToolActiveForElement
    simp only [mask_helper_num_bool _ e k b, touch_helper_num_bool _ e k b ita,
      setToolModeForElement_congr _ _ _ _ _ _ _ _ _ (normalizeOptions_num_bool k b ita)]
  · exact setToolModeForElement_congr _ _ _ _ _ _ _ _ _ (normalizeOptions_num_bool k b ita)
  · exact setToolModeForElement_congr _ _ _ _ _ _ _ _ _ (normalizeOptions_num_bool k b ita)
  · exact setToolModeForElement_congr _ _ _ _ _ _ _ _ _ (normalizeOptions_num_bool k b ita)
  · refine ⟨?_, ?_, ?_, ?_⟩
    · unfold setToolActiveForElement
      simp only [mask_helper_num_other _ e k, touch_helper_num_other _ e k ita ita' hb,
        setToolModeForElement_congr _ _ _ _ _ _ _ _ _ (normalizeOptions_num_other k ita hb ita')]
    · exact setToolModeForElement_congr _ _ _ _ _ _ _ _ _ (normalizeOptions_num_other k ita hb ita')
    · exact setToolModeForElement_congr _ _ _ _ _ _ _ _ _ (normalizeOptions_num_other k ita hb ita')
    · exact setToolModeForElement_congr _ _ _ _ _ _ _ _ _ (normalizeOptions_num_other k ita hb ita')

/-! ## Options that are `null` or `undefined` -/

/-- On every store, whenever `getToolForElement(element, toolName)` finds a
tool, `setToolActiveForElement` called with options `undefined` or `null`
raises a `TypeError` (the read `options.mouseButtonMask` of the first helper). -/
theorem setToolActiveForElement_raises (s : Store) (e : Nat) (n : String) (T : Tool)
    (ita : Prim) (h : getToolForElement s e n = some T) :
    setToolActiveForElement e n Options.undefined ita s = Except.error JSError.typeError ∧
    setToolActiveForElement e n Options.null ita s = Except.error JSError.typeError := by
  unfold setToolActiveForElement
  rw [h]
  constructor <;> rfl

/-- The store `oneToolStore` holds `Length` on element 0, so activating it with
options `undefined` or `null` raises. -/
theorem setToolActiveForElement_raises_witness :
    setToolActiveForElement 0 "Length" Options.undefined (Prim.bool true) oneToolStore =
      Except.error JSError.typeError ∧
    setToolActiveForElement 0 "Length" Options.null (Prim.bool true) oneToolStore =
      Except.error JSError.typeError :=
  setToolActiveForElement_raises oneToolStore 0 "Length" _ (Prim.bool true) rfl

/-- For every mode and change event, so for `setToolPassiveForElement`,
`setToolEnabledForElement` and `setToolDisabledForElement`, on every store
(tool found or not): the call with options `undefined` or `null` yields the
same store, callbacks and events as the call with the empty object `{}`. -/
theorem setToolModeForElement_nullish (mode : Mode) (ev : Option String) (e : Nat)
    (n : String) (ita : Prim) (s : Store) :
    setToolModeForElement mode ev e n Options.undefined ita s =
      setToolModeForElement mode ev e n (Options.obj Obj.empty) ita s ∧
    setToolModeForElement mode ev e n Options.null ita s =
      setToolModeForElement mode ev e n (Options.obj Obj.empty) ita s ∧
    setToolPassiveForElement e n Options.undefined ita s =
      setToolPassiveForElement e n (Options.obj Obj.empty) ita s ∧
    setToolPassiveForElement e n Options.null ita s =
      setToolPassiveForElement e n (Options.obj Obj.empty) ita s ∧
    setToolEnabledForElement e n Options.undefined ita s =
      setToolEnabledForElement e n (Options.obj Obj.empty) ita s ∧
    setToolEnabledForElement e n Options.null ita s =
      setToolEnabledForElement e n (Options.obj Obj.empty) ita s ∧
    setToolDisabledForElement e n Options.undefined ita s =
      setToolDisabledForElement e n (Options.obj Obj.empty) ita s ∧
    setToolDisabledForElement e n Options.null ita s =
      setToolDisabledForElement e n (Options.obj Obj.empty) ita s :=
  ⟨rfl, rfl, rfl, rfl, rfl, rfl, rfl, rfl⟩

/-- C6, the failing input. On the store `oneToolStore`, whose element 0 holds
the tool `Length`, `setToolActiveForElement(0, 'Length', undefined)` and the
same call with `null` raise a `TypeError`, while the call with `{}` returns;
the passive, enabled and disabled calls with `undefined` return what the call
with `{}` returns. -/
theorem active_raises_on_nullish_options :
    setToolActiveForElement 0 "Length" Options.undefined Prim.undefined oneToolStore =
      Except.error JSError.typeError ∧
    setToolActiveForElement 0 "Length" Options.null Prim.undefined oneToolStore =
      Except.error JSError.typeError ∧
    (∃ s', setToolActiveForElement 0 "Length" (Options.obj Obj.empty) Prim.undefined
      oneToolStore = Except.ok s') ∧
    setToolPassiveForElement 0 "Length" Options.undefined Prim.undefined oneToolStore =
      setToolPassiveForElement 0 "Length" (Options.obj Obj.empty) Prim.undefined oneToolStore ∧
    setToolEnabledForElement 0 "Length" Options.undefined Prim.undefined oneToolStore =
      setToolEnabledForElement 0 "Length" (Options.obj Obj.empty) Prim.undefined oneToolStore ∧
    setToolDisabledForElement 0 "Length" Options.undefined Prim.undefined oneToolStore =
      setToolDisabledForElement 0 "Length" (Options.obj Obj.empty) Prim.undefined oneToolStore :=
  ⟨rfl, rfl, ⟨_, rfl⟩, rfl, rfl, rfl⟩

/-! ## The two demotion helpers, seen through `getToolForElement` -/

theorem mask_helper_demotion (tool : Tool) (e : Nat) (o : Options) (s : Store)
    (ho : o.isNumberOrObject = true) :
    ∃ s1, _setActiveToolWithMatchingMouseButtonMaskToPassive tool e o s = Except.ok s1 ∧
      DemotionOf e s s1 := by
  unfold _setActiveToolWithMatchingMouseButtonMaskToPassive
  cases o with
  | null => simp [Options.isNumberOrObject] at ho
  | undefined => simp [Options.isNumberOrObject] at ho
  | num k =>
    simp only [Options.getProp]
    split
    · split
      · exact ⟨_, rfl, Or.inr ⟨_, _, rfl⟩⟩
      · exact ⟨_, rfl, Or.inl rfl⟩
    · exact ⟨_, rfl, Or.inl rfl⟩
  | obj ob =>
    simp only [Options.getProp]
    split
    · split
      · exact ⟨_, rfl, Or.inr ⟨_, _, rfl⟩⟩
      · exact ⟨_, rfl, Or.inl rfl⟩
    · exact ⟨_, rfl, Or.inl rfl⟩

theorem touch_helper_demotion (tool : Tool) (e : Nat) (o : Options) (ita : Prim) (s : Store)
    (ho : o.isNumberOrObject = true) :
    ∃ s1, _setActiveToolWithIsTouchActiveToPassive tool e o ita s = Except.ok s1 ∧
      DemotionOf e s s1 := by
  have key : ∀ value : Prim, ∃ s1,
      (match (if value.isBoolean && decide (value = Prim.bool true) then
          s.tools.find? (holdsTouch e)
        else none) with
      | some found =>
        Except.ok (setToolPassiveForElement e found.name Options.undefined Prim.undefined s)
      | none => (Except.ok s : Except JSError Store)) = Except.ok s1 ∧ DemotionOf e s s1 := by
    intro value
    split
    · exact ⟨_, rfl, Or.inr ⟨_, s.log, rfl⟩⟩
    · exact ⟨_, rfl, Or.inl rfl⟩
  unfold _setActiveToolWithIsTouchActiveToPassive
  cases o with
  | null => simp [Options.isNumberOrObject] at ho
  | undefined => simp [Options.isNumberOrObject] at ho
  | num k =>
    by_cases hb : ita.isBoolean = true
    · simp only [Options.isNumber, hb, Bool.and_self, if_true]
      exact key _
    · simp only [Options.isNumber, hb, Bool.and_false, Bool.false_eq_true, if_false,
        Options.isObject]
      exact key _
  | obj ob =>
    simp only [Options.isNumber, Bool.false_and, Bool.false_eq_true, if_false,
      Options.isObject, if_true, Options.getProp]
    by_cases hb : (Obj.get ob "isTouchActive").isBoolean = true
    · simp only [hb, if_true]
      exact key _
    · simp only [hb, Bool.false_eq_true, if_false]
      exact key _

theorem demotion_lookup (e : Nat) (s s1 : Store) (h : DemotionOf e s s1) (e' : Nat)
    (n' : String) :
    getToolForElement s1 e' n' = getToolForElement s e' n' ∨
      (e' = e ∧ ∃ t, getToolForElement s e' n' = some t ∧
        getToolForElement s1 e' n' = some { t with mode := Mode.passive }) := by
  rcases h with rfl | ⟨x, lg, rfl⟩
  · exact Or.inl rfl
  · unfold setToolPassiveForElement
    rw [getTool_setToolModeForElement]
    by_cases hk : e' = e ∧ n' = x
    · rw [if_pos hk]
      obtain ⟨rfl, rfl⟩ := hk
      cases ht : getToolForElement s e' n' with
      | none =>
        left
        show Option.map _ (getToolForElement s e' n') = none
        rw [ht]; rfl
      | some t =>
        right
        refine ⟨rfl, t, rfl, ?_⟩
        show Option.map _ (getToolForElement s e' n') = _
        rw [ht]; rfl
    · rw [if_neg hk]
      exact Or.inl rfl

theorem demotion_lookup_some (e : Nat) (s s1 : Store) (h : DemotionOf e s s1) (e' : Nat)
    (n' : String) (t : Tool) (ht : getToolForElement s e' n' = some t) :
    getToolForElement s1 e' n' = some t ∨
      (e' = e ∧ getToolForElement s1 e' n' = some { t with mode := Mode.passive }) := by
  rcases demotion_lookup e s s1 h e' n' with h1 | ⟨he, t', ht', h1⟩
  · exact Or.inl (h1.trans ht)
  · rw [ht] at ht'
    cases ht'
    exact Or.inr ⟨he, h1⟩

theorem active_unfold (s : Store) (e : Nat) (n : String) (T : Tool) (o : Options) (ita : Prim)
    (hT : getToolForElement s e n = some T) (ho : o.isNumberOrObject = true) :
    ∃ s1 s2, DemotionOf e s s1 ∧ DemotionOf e s1 s2 ∧
      _setActiveToolWithMatchingMouseButtonMaskToPassive T e o s = Except.ok s1 ∧
      _setActiveToolWithIsTouchActiveToPassive (deref s1 T) e o ita s1 = Except.ok s2 ∧
      setToolActiveForElement e n o ita s =
        Except.ok (setToolModeForElement Mode.active none e n o ita s2) := by
  obtain ⟨s1, h1, d1⟩ := mask_helper_demotion T e o s ho
  obtain ⟨s2, h2, d2⟩ := touch_helper_demotion (deref s1 T) e o ita s1 ho
  refine ⟨s1, s2, d1, d2, h1, h2, ?_⟩
  unfold setToolActiveForElement
  rw [hT]
  simp only [h1, h2]

/-! ## Mode and options after a call -/

/-- C3. For a tool `T` found by `getToolForElement(element, toolName)` and
options that are a number or an object, after `setToolActiveForElement`,
`setToolPassiveForElement`, `setToolEnabledForElement`,
`setToolDisabledForElement` the tool registered under that name is `T` with
mode `active`, `passive`, `enabled`, `disabled` and with options
`Object.assign({}, T.options, normalised options)`: each supplied key takes
the supplied value, every other key keeps its value. A number `k` with a
boolean `b` normalises to `{mouseButtonMask: k, isTouchActive: b}`, a number
with a fourth argument that is no boolean to `{mouseButtonMask: k}`, an
object to itself. -/
theorem mode_and_options_after (s : Store) (e : Nat) (n : String) (T : Tool) (o : Options)
    (ita : Prim) (hT : getToolForElement s e n = some T) (ho : o.isNumberOrObject = true) :
    (∃ s', setToolActiveForElement e n o ita s = Except.ok s' ∧
      getToolForElement s' e n = some (applyMode Mode.active (normalizeOptions o ita) T)) ∧
    getToolForElement (setToolPassiveForElement e n o ita s) e n =
      some (applyMode Mode.passive (normalizeOptions o ita) T) ∧
    getToolForElement (setToolEnabledForElement e n o ita s) e n =
      some (applyMode Mode.enabled (normalizeOptions o ita) T) ∧
    getToolForElement (setToolDisabledForElement e n o ita s) e n =
      some (applyMode Mode.disabled (normalizeOptions o ita) T) ∧
    (∀ m, (applyMode m (normalizeOptions o ita) T).mode = m ∧
      ∀ key, (applyMode m (normalizeOptions o ita) T).options key =
        match normalizeOptions o ita key with
        | some v => some v
        | none => T.options key) ∧
    (∀ k b, normalizeOptions (Options.num k) (Prim.bool b) =
      Obj.ofList [("mouseButtonMask", Prim.num k), ("isTouchActive", Prim.bool b)]) ∧
    (∀ k x, x.isBoolean = false → normalizeOptions (Options.num k) x =
      Obj.ofList [("mouseButtonMask", Prim.num k)]) ∧
    (∀ ob x, normalizeOptions (Options.obj ob) x = ob) := by
  refine ⟨?_, ?_, ?_, ?_, fun m => ⟨rfl, fun key => rfl⟩,
    fun k b => normalizeOptions_num_bool k b Prim.undefined,
    fun k x hx => normalizeOptions_num_other k x hx Prim.undefined, fun _ _ => rfl⟩
  · obtain ⟨s1, s2, d1, d2, -, -, h⟩ := active_unfold s e n T o ita hT ho
    refine ⟨_, h, ?_⟩
    rw [getTool_setToolModeForElement, if_pos ⟨rfl, rfl⟩]
    rcases demotion_lookup_some e s s1 d1 e n T hT with h1 | ⟨-, h1⟩
    · rcases demotion_lookup_some e s1 s2 d2 e n T h1 with h2 | ⟨-, h2⟩
      · rw [h2]; rfl
      · rw [h2]; rfl
    · rcases demotion_lookup_some e s1 s2 d2 e n _ h1 with h2 | ⟨-, h2⟩
      · rw [h2]; rfl
      · rw [h2]; rfl
  · unfold setToolPassiveForElement
    rw [getTool_setToolModeForElement, if_pos ⟨rfl, rfl⟩, hT]; rfl
  · unfold setToolEnabledForElement
    rw [getTool_setToolModeForElement, if_pos ⟨rfl, rfl⟩, hT]; rfl
  · unfold setToolDisabledForElement
    rw [getTool_setToolModeForElement, if_pos ⟨rfl, rfl⟩, hT]; rfl

/-- C3, at the store `oneToolStore`, with the numeric option 2 and touch `true`. -/
theorem mode_and_options_after_witness :
    (∃ s', setToolActiveForElement 0 "Length" (Options.num 2) (Prim.bool true) oneToolStore =
        Except.ok s' ∧
      getToolForElement s' 0 "Length" = some (applyMode Mode.active
        (normalizeOptions (Options.num 2) (Prim.bool true))
        (sampleTool 0 "Length" Mode.passive (Obj.ofList [("mouseButtonMask", Prim.num 1)])))) ∧
    Obj.get (applyMode Mode.active (normalizeOptions (Options.num 2) (Prim.bool true))
      (sampleTool 0 "Length" Mode.passive
        (Obj.ofList [("mouseButtonMask", Prim.num 1)]))).options "mouseButtonMask" =
      Prim.num 2 :=
  ⟨(mode_and_options_after oneToolStore 0 "Length" _ (Options.num 2) (Prim.bool true) rfl rfl).1,
    by decide⟩

/-! ## What the two helpers do -/

theorem mask_helper_eq (tool : Tool) (e : Nat) (o : Options) (s : Store)
    (ho : o.isNumberOrObject = true) :
    _setActiveToolWithMatchingMouseButtonMaskToPassive tool e o s =
      Except.ok (match s.tools.find? (holdsMask e (wantedMask tool o)) with
        | some found =>
          if (wantedMask tool o).gtZero then
            setToolPassiveForElement e found.name Options.undefined Prim.undefined
              { s with log := s.log ++ [Effect.info found.name] }
          else s
        | none => s) := by
  have hz : ∀ v : Prim, (decide (v ≠ Prim.undefined) && v.gtZero) = v.gtZero := by
    intro v; cases v <;> simp [Prim.gtZero]
  unfold _setActiveToolWithMatchingMouseButtonMaskToPassive
  cases o with
  | null => simp [Options.isNumberOrObject] at ho
  | undefined => simp [Options.isNumberOrObject] at ho
  | num k =>
    simp only [Options.getProp, hz, wantedMask]
    split
    · split <;> rfl
    · rfl
  | obj ob =>
    simp only [Options.getProp, hz, wantedMask]
    split
    · split <;> rfl
    · rfl

theorem touch_helper_eq (tool : Tool) (e : Nat) (o : Options) (ita : Prim) (s : Store)
    (ho : o.isNumberOrObject = true) :
    _setActiveToolWithIsTouchActiveToPassive tool e o ita s =
      Except.ok (match (if wantedTouch tool o ita = Prim.bool true then
            s.tools.find? (holdsTouch e) else none) with
        | some found =>
          setToolPassiveForElement e found.name Options.undefined Prim.undefined s
        | none => s) := by
  have key : ∀ value : Prim,
      (match (if value.isBoolean && decide (value = Prim.bool true) then
          s.tools.find? (holdsTouch e)
        else none) with
      | some found =>
        Except.ok (setToolPassiveForElement e found.name Options.undefined Prim.undefined s)
      | none => (Except.ok s : Except JSError Store)) =
      Except.ok (match (if value = Prim.bool true then
            s.tools.find? (holdsTouch e) else none) with
        | some found =>
          setToolPassiveForElement e found.name Options.undefined Prim.undefined s
        | none => s) := by
    intro value
    have hv : (value.isBoolean && decide (value = Prim.bool true)) =
        decide (value = Prim.bool true) := by
      cases value <;> simp [Prim.isBoolean]
    rw [hv]
    by_cases hvt : value = Prim.bool true
    · simp only [hvt, decide_True, if_true]
      cases s.tools.find? (holdsTouch e) <;> rfl
    · simp only [hvt, decide_False, Bool.false_eq_true, if_false]
  unfold _setActiveToolWithIsTouchActiveToPassive
  cases o with
  | null => simp [Options.isNumberOrObject] at ho
  | undefined => simp [Options.isNumberOrObject] at ho
  | num k =>
    by_cases hb : ita.isBoolean = true
    · simp only [Options.isNumber, hb, Bool.and_self, if_true, wantedTouch]
      exact key _
    · simp only [Options.isNumber, hb, Bool.and_false, Bool.false_eq_true, if_false,
        Options.isObject, wantedTouch]
      exact key _
  | obj ob =>
    simp only [Options.isNumber, Bool.false_and, Bool.false_eq_true, if_false,
      Options.isObject, if_true, Options.getProp, wantedTouch]
    by_cases hb : (Obj.get ob "isTouchActive").isBoolean = true
    · simp only [hb, if_true]
      exact key _
    · simp only [hb, Bool.false_eq_true, if_false]
      exact key _

theorem getTool_mem (s : Store) (e : Nat) (n : String) (t : Tool)
    (h : getToolForElement s e n = some t) : t ∈ s.tools ∧ t.element = e ∧ t.name = n := by
  unfold getToolForElement at h
  refine ⟨List.mem_of_find?_eq_some h, ?_⟩
  have := List.find?_some h
  simpa using this

/-! ## Activation demotes the holder of the mask -/

/-- C1 fails as stated: on `twoHoldersStore` the tools `Wwwc` and `Length` are
both registered on element 0 (names unique), `Length` is active with mask
1, and after `setToolActiveForElement(0, 'Wwwc', 1)` the tool `Length` is
still active: `find` returned `Wwwc` itself, the first holder of the mask. -/
theorem activation_leaves_second_holder_active :
    UniqueNames twoHoldersStore ∧
    (getToolForElement twoHoldersStore 0 "Wwwc").map Tool.mode = some Mode.active ∧
    (getToolForElement twoHoldersStore 0 "Length").map Tool.mode = some Mode.active ∧
    (getToolForElement twoHoldersStore 0 "Length").map
      (fun t => Obj.get t.options "mouseButtonMask") = some (Prim.num 1) ∧
    ∃ s', setToolActiveForElement 0 "Wwwc" (Options.num 1) Prim.undefined twoHoldersStore =
        Except.ok s' ∧
      (getToolForElement s' 0 "Length").map Tool.mode = some Mode.active ∧
      (getToolForElement s' 0 "Wwwc").map Tool.mode = some Mode.active := by
  refine ⟨?_, by decide, by decide, by decide, _, rfl, by decide, by decide⟩
  simp [UniqueNames, twoHoldersStore, sampleTool]

/-- C1, amended. Let `A` and `B` be tools registered on `element` under
different names, `B` active with `options.mouseButtonMask` equal to `m > 0`,
and let `B` be the only tool on that element that is active with that mask.
Then `setToolActiveForElement(element, A.name, m)` returns, and afterwards
`B` is passive (its options as before) and `A` is active. -/
theorem activation_demotes_mask_holder (s : Store) (e : Nat) (m : Int) (A B : Tool)
    (ita : Prim) (hm : 0 < m)
    (hA : getToolForElement s e A.name = some A)
    (hB : getToolForElement s e B.name = some B)
    (hne : A.name ≠ B.name)
    (hBa : B.mode = Mode.active)
    (hBm : Obj.get B.options "mouseButtonMask" = Prim.num m)
    (honly : ∀ t ∈ s.tools, t.element = e → t.mode = Mode.active →
      Obj.get t.options "mouseButtonMask" = Prim.num m → t.name = B.name) :
    ∃ s', setToolActiveForElement e A.name (Options.num m) ita s = Except.ok s' ∧
      getToolForElement s' e B.name = some { B with mode := Mode.passive } ∧
      getToolForElement s' e A.name =
        some (applyMode Mode.active (normalizeOptions (Options.num m) ita) A) := by
  obtain ⟨s1, s2, -, d2, h1, -, h⟩ := active_unfold s e A.name A (Options.num m) ita hA rfl
  have hw : wantedMask A (Options.num m) = Prim.num m := by
    simp [wantedMask, Prim.or, Prim.truthy, hm.ne']
  obtain ⟨hBmem, hBe, -⟩ := getTool_mem s e B.name B hB
  rw [mask_helper_eq A e (Options.num m) s rfl, hw] at h1
  have hfind : ∃ found, s.tools.find? (holdsMask e (Prim.num m)) = some found ∧
      found.name = B.name := by
    cases hf : s.tools.find? (holdsMask e (Prim.num m)) with
    | none =>
      rw [List.find?_eq_none] at hf
      exact absurd (by simp [holdsMask, hBe, hBa, hBm]) (hf B hBmem)
    | some found =>
      refine ⟨found, rfl, ?_⟩
      have hp := List.find?_some hf
      simp only [holdsMask, decide_eq_true_eq] at hp
      exact honly found (List.mem_of_find?_eq_some hf) hp.1 hp.2.1 hp.2.2
  obtain ⟨found, hf, hname⟩ := hfind
  have hg : (Prim.num m).gtZero = true := by simp [Prim.gtZero, hm]
  simp only [hf, hg, if_true, hname] at h1
  have h1' := (Except.ok.injEq _ _).mp h1
  have hB1 : getToolForElement s1 e B.name = some { B with mode := Mode.passive } := by
    rw [← h1']
    unfold setToolPassiveForElement
    rw [getTool_setToolModeForElement, if_pos ⟨rfl, rfl⟩]
    show Option.map _ (getToolForElement s e B.name) = _
    rw [hB]; rfl
  have hA1 : getToolForElement s1 e A.name = some A := by
    rw [← h1']
    unfold setToolPassiveForElement
    rw [getTool_setToolModeForElement, if_neg (fun hc => hne hc.2)]
    exact hA
  refine ⟨_, h, ?_, ?_⟩
  · rw [getTool_setToolModeForElement, if_neg (fun hc => hne hc.2.symm)]
    rcases demotion_lookup_some e s1 s2 d2 e B.name _ hB1 with h2 | ⟨-, h2⟩
    · exact h2
    · exact h2
  · rw [getTool_setToolModeForElement, if_pos ⟨rfl, rfl⟩]
    rcases demotion_lookup_some e s1 s2 d2 e A.name _ hA1 with h2 | ⟨-, h2⟩
    · rw [h2]; rfl
    · rw [h2]; rfl

/-- C1 amended, at the store `holderStore`: `Length` holds mask 1, `Wwwc` is
activated with mask 1. -/
theorem activation_demotes_mask_holder_witness :
    ∃ s', setToolActiveForElement 0 "Wwwc" (Options.num 1) Prim.undefined holderStore =
        Except.ok s' ∧
      getToolForElement s' 0 "Length" = some { sampleTool 0 "Length" Mode.active
        (Obj.ofList [("mouseButtonMask", Prim.num 1)]) with mode := Mode.passive } ∧
      getToolForElement s' 0 "Wwwc" =
        some (applyMode Mode.active (normalizeOptions (Options.num 1) Prim.undefined)
          (sampleTool 0 "Wwwc" Mode.passive (Obj.ofList [("mouseButtonMask", Prim.num 1)]))) :=
  activation_demotes_mask_holder holderStore 0 1
    (sampleTool 0 "Wwwc" Mode.passive (Obj.ofList [("mouseButtonMask", Prim.num 1)]))
    (sampleTool 0 "Length" Mode.active (Obj.ofList [("mouseButtonMask", Prim.num 1)]))
    Prim.undefined (by decide) rfl rfl (by decide) rfl (by decide)
    (by
      intro t ht
      simp only [holderStore, List.mem_cons, List.mem_singleton, List.not_mem_nil,
        or_false] at ht
      rcases ht with rfl | rfl
      · intro _ h; cases h
      · intro _ _ _; rfl)

/-! ## The operations over all enabled elements -/

theorem active_shape (s : Store) (e : Nat) (n : String) (o : Options) (ita : Prim)
    (ho : o.isNumberOrObject = true) :
    ∃ s1 s2, DemotionOf e s s1 ∧ DemotionOf e s1 s2 ∧
      setToolActiveForElement e n o ita s =
        Except.ok (setToolModeForElement Mode.active none e n o ita s2) := by
  cases hT : getToolForElement s e n with
  | none =>
    refine ⟨s, s, Or.inl rfl, Or.inl rfl, ?_⟩
    unfold setToolActiveForElement
    rw [hT]
  | some T =>
    obtain ⟨s1, s2, d1, d2, -, -, h⟩ := active_unfold s e n T o ita hT ho
    exact ⟨s1, s2, d1, d2, h⟩

theorem active_eq_activeOrSame (s : Store) (e : Nat) (n : String) (o : Options) (ita : Prim)
    (ho : o.isNumberOrObject = true) :
    setToolActiveForElement e n o ita s = Except.ok (activeOrSame e n o ita s) := by
  obtain ⟨s1, s2, -, -, h⟩ := active_shape s e n o ita ho
  unfold activeOrSame
  rw [h]

theorem isSome_setToolModeForElement (mode : Mode) (ev : Option String) (e : Nat)
    (n : String) (o : Options) (ita : Prim) (s : Store) (e' : Nat) (n' : String) :
    (getToolForElement (setToolModeForElement mode ev e n o ita s) e' n').isSome =
      (getToolForElement s e' n').isSome := by
  rw [getTool_setToolModeForElement]
  by_cases hk : e' = e ∧ n' = n
  · obtain ⟨rfl, rfl⟩ := hk
    rw [if_pos ⟨rfl, rfl⟩, Option.isSome_map']
  · rw [if_neg hk]

theorem isSome_demotion (e : Nat) (s s1 : Store) (h : DemotionOf e s s1) (e' : Nat)
    (n' : String) :
    (getToolForElement s1 e' n').isSome = (getToolForElement s e' n').isSome := by
  rcases demotion_lookup e s s1 h e' n' with h1 | ⟨-, t, ht, h1⟩
  · rw [h1]
  · rw [h1, ht]; rfl

theorem other_element_demotion (e : Nat) (s s1 : Store) (h : DemotionOf e s s1) (e' : Nat)
    (n' : String) (hne : e' ≠ e) :
    getToolForElement s1 e' n' = getToolForElement s e' n' := by
  rcases demotion_lookup e s s1 h e' n' with h1 | ⟨he, -⟩
  · exact h1
  · exact absurd he hne

theorem fold_lookup (n : String) (m : Mode) (step : Nat → Store → Store)
    (h1 : ∀ e s, (getToolForElement s e n).isSome = true →
      (getToolForElement (step e s) e n).map Tool.mode = some m)
    (h2 : ∀ e s e', e' ≠ e → getToolForElement (step e s) e' n = getToolForElement s e' n)
    (h3 : ∀ e s, getToolForElement s e n = none → getToolForElement (step e s) e n = none)
    (l : List Nat) :
    ∀ s, (∀ e ∈ l, (getToolForElement s e n).isSome = true →
        (getToolForElement (l.foldl (fun acc e => step e acc) s) e n).map Tool.mode = some m) ∧
      (∀ e, (getToolForElement s e n).map Tool.mode = some m →
        (getToolForElement (l.foldl (fun acc e => step e acc) s) e n).map Tool.mode = some m) ∧
      (∀ e, (getToolForElement (l.foldl (fun acc e => step e acc) s) e n).isSome =
        (getToolForElement s e n).isSome) := by
  have hsome : ∀ e s e', (getToolForElement (step e s) e' n).isSome =
      (getToolForElement s e' n).isSome := by
    intro e s e'
    by_cases he : e' = e
    · subst he
      cases hg : getToolForElement s e' n with
      | none => rw [h3 e' s hg]
      | some t =>
        have := h1 e' s (by rw [hg]; rfl)
        cases hg' : getToolForElement (step e' s) e' n with
        | none => rw [hg'] at this; cases this
        | some t' => rfl
    · rw [h2 e s e' he]
  have hkeep : ∀ e s e', (getToolForElement s e' n).map Tool.mode = some m →
      (getToolForElement (step e s) e' n).map Tool.mode = some m := by
    intro e s e' hm
    by_cases he : e' = e
    · subst he
      apply h1
      cases hg : getToolForElement s e' n with
      | none => rw [hg] at hm; cases hm
      | some t => rfl
    · rw [h2 e s e' he]; exact hm
  induction l with
  | nil =>
    intro s
    exact ⟨fun e he => absurd he (List.not_mem_nil e), fun e h => h, fun e => rfl⟩
  | cons a l ih =>
    intro s
    obtain ⟨ih1, ih2, ih3⟩ := ih (step a s)
    refine ⟨?_, ?_, ?_⟩
    · intro e he hs
      rw [List.foldl_cons]
      by_cases hel : e ∈ l
      · exact ih1 e hel (by rw [hsome]; exact hs)
      · have hea : e = a := by
          rcases List.mem_cons.mp he with h | h
          · exact h
          · exact absurd h hel
        subst hea
        exact ih2 e (h1 e s hs)
    · intro e hm
      rw [List.foldl_cons]
      exact ih2 e (hkeep a s e hm)
    · intro e
      rw [List.foldl_cons, ih3 e, hsome]

theorem foldlM_ok (f : Store → Nat → Store) (l : List Nat) :
    ∀ s, l.foldlM (fun acc e => (Except.ok (f acc e) : Except JSError Store)) s =
      Except.ok (l.foldl f s) := by
  induction l with
  | nil => intro s; rfl
  | cons a l ih =>
    intro s
    rw [List.foldlM_cons, List.foldl_cons]
    exact ih (f s a)

theorem enabledElements_demotion (e : Nat) (s s1 : Store) (h : DemotionOf e s s1) :
    s1.enabledElements = s.enabledElements := by
  rcases h with rfl | ⟨x, lg, rfl⟩
  · rfl
  · unfold setToolPassiveForElement
    rw [enabledElements_setToolModeForElement]

theorem lookup_activeOrSame (s : Store) (e : Nat) (n : String) (o : Options) (ita : Prim)
    (ho : o.isNumberOrObject = true) :
    ((getToolForElement s e n).isSome = true →
      (getToolForElement (activeOrSame e n o ita s) e n).map Tool.mode = some Mode.active) ∧
    (∀ e', e' ≠ e →
      getToolForElement (activeOrSame e n o ita s) e' n = getToolForElement s e' n) ∧
    (getToolForElement s e n = none →
      getToolForElement (activeOrSame e n o ita s) e n = none) := by
  obtain ⟨s1, s2, d1, d2, h⟩ := active_shape s e n o ita ho
  have hs : activeOrSame e n o ita s = setToolModeForElement Mode.active none e n o ita s2 := by
    unfold activeOrSame
    rw [h]
  rw [hs]
  refine ⟨?_, ?_, ?_⟩
  · intro hsome
    rw [getTool_setToolModeForElement, if_pos ⟨rfl, rfl⟩]
    have h2 : (getToolForElement s2 e n).isSome = true := by
      rw [isSome_demotion e s1 s2 d2, isSome_demotion e s s1 d1]; exact hsome
    cases hg : getToolForElement s2 e n with
    | none => rw [hg] at h2; cases h2
    | some t => rfl
  · intro e' hne
    rw [getTool_setToolModeForElement, if_neg (fun hc => hne hc.1),
      other_element_demotion e s1 s2 d2 e' n hne, other_element_demotion e s s1 d1 e' n hne]
  · intro hnone
    have h2 : (getToolForElement s2 e n).isSome = false := by
      rw [isSome_demotion e s1 s2 d2, isSome_demotion e s s1 d1, hnone]; rfl
    rw [getTool_setToolModeForElement, if_pos ⟨rfl, rfl⟩]
    cases hg : getToolForElement s2 e n with
    | none => rfl
    | some t => rw [hg] at h2; cases h2

theorem lookup_setToolModeForElement_fold (mode : Mode) (ev : Option String) (n : String)
    (o : Options) (ita : Prim) (s : Store) (e : Nat) (he : e ∈ s.enabledElements)
    (hs : (getToolForElement s e n).isSome = true) :
    (getToolForElement (setToolMode mode ev n o ita s) e n).map Tool.mode = some mode := by
  unfold setToolMode
  refine (fold_lookup n mode (fun e acc => setToolModeForElement mode ev e n o ita acc)
    ?_ ?_ ?_ s.enabledElements s).1 e he hs
  · intro e s hsome
    rw [getTool_setToolModeForElement, if_pos ⟨rfl, rfl⟩]
    cases hg : getToolForElement s e n with
    | none => rw [hg] at hsome; cases hsome
    | some t => rfl
  · intro e s e' hne
    rw [getTool_setToolModeForElement, if_neg (fun hc => hne hc.1)]
  · intro e s hnone
    rw [getTool_setToolModeForElement, if_pos ⟨rfl, rfl⟩, hnone]; rfl

/-- C4. For options that are a number or an object, `setToolActive` returns,
and after `setToolActive`, `setToolPassive`, `setToolEnabled`,
`setToolDisabled` every enabled element on which a tool of that name is
registered has it in mode `active`, `passive`, `enabled`, `disabled`; this
holds whatever other enabled elements lack the tool. Each result is the fold
of the matching `...ForElement` operation over `state.enabledElements` in list
order. -/
theorem global_operations (s : Store) (n : String) (o : Options) (ita : Prim)
    (ho : o.isNumberOrObject = true) :
    (∃ s', setToolActive n o ita s = Except.ok s' ∧
      s' = s.enabledElements.foldl (fun acc e => activeOrSame e n o ita acc) s ∧
      ∀ e ∈ s.enabledElements, (getToolForElement s e n).isSome = true →
        (getToolForElement s' e n).map Tool.mode = some Mode.active) ∧
    (∀ e ∈ s.enabledElements, (getToolForElement s e n).isSome = true →
      (getToolForElement (setToolPassive n o ita s) e n).map Tool.mode = some Mode.passive) ∧
    (∀ e ∈ s.enabledElements, (getToolForElement s e n).isSome = true →
      (getToolForElement (setToolEnabled n o ita s) e n).map Tool.mode = some Mode.enabled) ∧
    (∀ e ∈ s.enabledElements, (getToolForElement s e n).isSome = true →
      (getToolForElement (setToolDisabled n o ita s) e n).map Tool.mode =
        some Mode.disabled) ∧
    setToolActive n o ita s = s.enabledElements.foldlM
      (fun acc e => setToolActiveForElement e n o ita acc) s ∧
    setToolPassive n o ita s = s.enabledElements.foldl
      (fun acc e => setToolPassiveForElement e n o ita acc) s ∧
    setToolEnabled n o ita s = s.enabledElements.foldl
      (fun acc e => setToolEnabledForElement e n o ita acc) s ∧
    setToolDisabled n o ita s = s.enabledElements.foldl
      (fun acc e => setToolDisabledForElement e n o ita acc) s := by
  refine ⟨?_, ?_, ?_, ?_, rfl, rfl, rfl, rfl⟩
  · refine ⟨_, ?_, rfl, ?_⟩
    · unfold setToolActive
      have hf : (fun acc e => setToolActiveForElement e n o ita acc) =
          (fun acc e => (Except.ok (activeOrSame e n o ita acc) : Except JSError Store)) := by
        funext acc e
        exact active_eq_activeOrSame acc e n o ita ho
      rw [hf]
      exact foldlM_ok (fun acc e => activeOrSame e n o ita acc) _ s
    · intro e he hs
      exact (fold_lookup n Mode.active (fun e acc => activeOrSame e n o ita acc)
        (fun e s => (lookup_activeOrSame s e n o ita ho).1)
        (fun e s => (lookup_activeOrSame s e n o ita ho).2.1)
        (fun e s => (lookup_activeOrSame s e n o ita ho).2.2) s.enabledElements s).1 e he hs
  · intro e he hs
    exact lookup_setToolModeForElement_fold _ _ n o ita s e he hs
  · intro e he hs
    exact lookup_setToolModeForElement_fold _ _ n o ita s e he hs
  · intro e he hs
    exact lookup_setToolModeForElement_fold _ _ n o ita s e he hs

/-- C4, at the store `twoElementStore`: element 1 lacks `Length`, element 0
has it. -/
theorem global_operations_witness :
    (getToolForElement twoElementStore 1 "Length").isSome = false ∧
    ∃ s', setToolActive "Length" (Options.num 1) Prim.undefined twoElementStore =
        Except.ok s' ∧
      (getToolForElement s' 0 "Length").map Tool.mode = some Mode.active :=
  ⟨by decide,
    (global_operations twoElementStore "Length" (Options.num 1) Prim.undefined rfl).1.imp
      (fun _ h => ⟨h.1, h.2.2 0 (by decide) (by decide)⟩)⟩

/-! ## Unique names: membership is lookup -/

theorem keys_updateTool (e : Nat) (n : String) (f : Tool → Tool)
    (hf : ∀ t, (f t).element = t.element ∧ (f t).name = t.name) (l : List Tool) :
    (updateTool e n f l).map (fun t => (t.element, t.name)) =
      l.map (fun t => (t.element, t.name)) := by
  induction l with
  | nil => rfl
  | cons t l ih =>
    unfold updateTool
    by_cases h : t.element = e ∧ t.name = n
    · rw [if_pos h, List.map_cons, List.map_cons, (hf t).1, (hf t).2]
    · rw [if_neg h, List.map_cons, List.map_cons, ih]

theorem uniqueNames_iff_keys (s : Store) :
    UniqueNames s ↔
      (s.tools.map (fun t => (t.element, t.name))).Pairwise
        (fun p q => ¬ (p.1 = q.1 ∧ p.2 = q.2)) := by
  unfold UniqueNames
  rw [List.pairwise_map]

theorem uniqueNames_setToolModeForElement (mode : Mode) (ev : Option String) (e : Nat)
    (n : String) (o : Options) (ita : Prim) (s : Store) (h : UniqueNames s) :
    UniqueNames (setToolModeForElement mode ev e n o ita s) := by
  rw [uniqueNames_iff_keys] at h ⊢
  rw [tools_setToolModeForElement,
    keys_updateTool e n (applyMode mode (normalizeOptions o ita)) (fun t => ⟨rfl, rfl⟩)]
  exact h

theorem uniqueNames_demotion (e : Nat) (s s1 : Store) (hd : DemotionOf e s s1)
    (h : UniqueNames s) : UniqueNames s1 := by
  rcases hd with rfl | ⟨x, lg, rfl⟩
  · exact h
  · exact uniqueNames_setToolModeForElement _ _ _ _ _ _ _ h

theorem mem_getTool_list (l : List Tool)
    (hu : l.Pairwise (fun a b => ¬ (a.element = b.element ∧ a.name = b.name)))
    (t : Tool) (ht : t ∈ l) :
    l.find? (fun x => decide (x.element = t.element ∧ x.name = t.name)) = some t := by
  induction l with
  | nil => cases ht
  | cons a l ih =>
    rw [List.pairwise_cons] at hu
    rw [List.find?_cons]
    rcases List.mem_cons.mp ht with rfl | hin
    · simp
    · have hne : ¬ (a.element = t.element ∧ a.name = t.name) := hu.1 t hin
      simp only [hne, decide_False]
      exact ih hu.2 hin

theorem mem_getTool (s : Store) (hu : UniqueNames s) (t : Tool) (ht : t ∈ s.tools) :
    getToolForElement s t.element t.name = some t :=
  mem_getTool_list s.tools hu t ht

theorem mem_setToolModeForElement (mode : Mode) (ev : Option String) (e : Nat)
    (n : String) (o : Options) (ita : Prim) (s : Store) (hu : UniqueNames s) (t' : Tool)
    (ht : t' ∈ (setToolModeForElement mode ev e n o ita s).tools) :
    (t' ∈ s.tools ∧ ¬ (t'.element = e ∧ t'.name = n)) ∨
      (t'.element = e ∧ t'.name = n ∧ ∃ t0, getToolForElement s e n = some t0 ∧
        t' = applyMode mode (normalizeOptions o ita) t0) := by
  have h1 := mem_getTool _ (uniqueNames_setToolModeForElement mode ev e n o ita s hu) t' ht
  rw [getTool_setToolModeForElement] at h1
  by_cases hk : t'.element = e ∧ t'.name = n
  · rw [if_pos hk] at h1
    right
    refine ⟨hk.1, hk.2, ?_⟩
    cases hg : getToolForElement s e n with
    | none => rw [hg] at h1; cases h1
    | some t0 =>
      rw [hg] at h1
      exact ⟨t0, rfl, (Option.some.inj h1).symm⟩
  · rw [if_neg hk] at h1
    exact Or.inl ⟨(getTool_mem s _ _ t' h1).1, hk⟩

theorem active_mem_of_inactive_mode (mode : Mode) (hm : mode ≠ Mode.active)
    (ev : Option String) (e : Nat) (n : String) (o : Options) (ita : Prim) (s : Store)
    (hu : UniqueNames s) (t' : Tool)
    (ht : t' ∈ (setToolModeForElement mode ev e n o ita s).tools)
    (ha : t'.mode = Mode.active) : t' ∈ s.tools := by
  rcases mem_setToolModeForElement mode ev e n o ita s hu t' ht with h | ⟨-, -, t0, -, rfl⟩
  · exact h.1
  · exact absurd ha hm

theorem active_mem_of_demotion (e : Nat) (s s1 : Store) (hd : DemotionOf e s s1)
    (hu : UniqueNames s) (t' : Tool) (ht : t' ∈ s1.tools) (ha : t'.mode = Mode.active) :
    t' ∈ s.tools := by
  rcases hd with rfl | ⟨x, lg, rfl⟩
  · exact ht
  · exact active_mem_of_inactive_mode Mode.passive (by decide) _ e x _ _ { s with log := lg }
      hu t' ht ha

/-! ## Mutual exclusion -/

theorem maskClash_symm (a b : Tool) (h : maskClash a b) : maskClash b a := by
  obtain ⟨h1, h2, h3, h4, h5⟩ := h
  exact ⟨h1.symm, h3, h2, h5 ▸ h4, h5.symm⟩

theorem touchClash_symm (a b : Tool) (h : touchClash a b) : touchClash b a := by
  obtain ⟨h1, h2, h3, h4, h5⟩ := h
  exact ⟨h1.symm, h3, h2, h5, h4⟩

theorem excl_of_mutualExclusion (s : Store) (h : MutualExclusion s) : Excl s := by
  constructor
  · intro a ha b hb hc
    by_contra hne
    have hab : a ≠ b := fun hab => hne (by rw [hab])
    have hsym : Symmetric (fun a b : Tool => ¬ maskClash a b) :=
      fun x y hxy hyx => hxy (maskClash_symm y x hyx)
    exact List.Pairwise.forall hsym h.1 ha hb hab hc
  · intro a ha b hb hc
    by_contra hne
    have hab : a ≠ b := fun hab => hne (by rw [hab])
    have hsym : Symmetric (fun a b : Tool => ¬ touchClash a b) :=
      fun x y hxy hyx => hxy (touchClash_symm y x hyx)
    exact List.Pairwise.forall hsym h.2 ha hb hab hc

theorem mutualExclusion_of_excl (s : Store) (hu : UniqueNames s) (h : Excl s) :
    MutualExclusion s := by
  constructor
  · exact List.Pairwise.imp_of_mem (fun ha hb hn hc => hn ⟨hc.1, h.1 _ ha _ hb hc⟩) hu
  · exact List.Pairwise.imp_of_mem (fun ha hb hn hc => hn ⟨hc.1, h.2 _ ha _ hb hc⟩) hu

theorem excl_of_active_subset (s s' : Store)
    (hsub : ∀ t ∈ s'.tools, t.mode = Mode.active → t ∈ s.tools) (h : Excl s) : Excl s' := by
  constructor
  · intro a ha b hb hc
    exact h.1 a (hsub a ha hc.2.1) b (hsub b hb hc.2.2.1) hc
  · intro a ha b hb hc
    exact h.2 a (hsub a ha hc.2.1) b (hsub b hb hc.2.2.1) hc

theorem excl_inactive_mode (mode : Mode) (hm : mode ≠ Mode.active)
    (ev : Option String) (e : Nat) (n : String) (o : Options) (ita : Prim) (s : Store)
    (hu : UniqueNames s) (h : Excl s) : Excl (setToolModeForElement mode ev e n o ita s) :=
  excl_of_active_subset s _
    (fun t ht ha => active_mem_of_inactive_mode mode hm ev e n o ita s hu t ht ha) h

theorem excl_demotion (e : Nat) (s s1 : Store) (hd : DemotionOf e s s1)
    (hu : UniqueNames s) (h : Excl s) : Excl s1 :=
  excl_of_active_subset s s1 (fun t ht ha => active_mem_of_demotion e s s1 hd hu t ht ha) h

theorem wantedMask_final (T : Tool) (o : Options) (ita : Prim)
    (ho : o.isNumberOrObject = true)
    (hp : (Obj.get (Obj.assign T.options (normalizeOptions o ita))
      "mouseButtonMask").isPositiveNumber = true) :
    wantedMask T o = Obj.get (Obj.assign T.options (normalizeOptions o ita))
      "mouseButtonMask" := by
  cases o with
  | null => simp [Options.isNumberOrObject] at ho
  | undefined => simp [Options.isNumberOrObject] at ho
  | num k =>
    have hk : Obj.get (Obj.assign T.options (normalizeOptions (Options.num k) ita))
        "mouseButtonMask" = Prim.num k := by
      have := normalizeOptions_num_mask k ita
      unfold Obj.get at this ⊢
      unfold Obj.assign
      cases hn : normalizeOptions (Options.num k) ita "mouseButtonMask" with
      | none => rw [hn] at this; cases this
      | some v => rw [hn] at this; exact this
    rw [hk] at hp ⊢
    have hk0 : k ≠ 0 := by
      simp only [Prim.isPositiveNumber, decide_eq_true_eq] at hp
      exact hp.ne'
    simp [wantedMask, Prim.or, Prim.truthy, hk0]
  | obj ob =>
    unfold wantedMask Obj.get Obj.assign normalizeOptions at *
    cases hob : ob "mouseButtonMask" with
    | none => simp [hob, Prim.or, Prim.truthy]
    | some v =>
      simp only [hob, Option.getD_some] at hp ⊢
      cases v with
      | undefined => simp [Prim.isPositiveNumber] at hp
      | null => simp [Prim.isPositiveNumber] at hp
      | bool b => simp [Prim.isPositiveNumber] at hp
      | num x =>
        have hx0 : x ≠ 0 := by
          simp only [Prim.isPositiveNumber, decide_eq_true_eq] at hp
          exact hp.ne'
        simp [Prim.or, Prim.truthy, hx0]

theorem wantedTouch_final (T : Tool) (o : Options) (ita : Prim)
    (ho : o.isNumberOrObject = true)
    (hp : Obj.get (Obj.assign T.options (normalizeOptions o ita)) "isTouchActive" =
      Prim.bool true) :
    wantedTouch T o ita = Prim.bool true := by
  cases o with
  | null => simp [Options.isNumberOrObject] at ho
  | undefined => simp [Options.isNumberOrObject] at ho
  | num k =>
    cases ita with
    | bool b =>
      cases b
      · simp [Obj.get, Obj.assign, normalizeOptions, Obj.set] at hp
      · simp [wantedTouch, Prim.isBoolean]
    | undefined =>
      simpa [wantedTouch, Prim.isBoolean, Obj.get, Obj.assign, normalizeOptions, Obj.set,
        Obj.empty] using hp
    | null =>
      simpa [wantedTouch, Prim.isBoolean, Obj.get, Obj.assign, normalizeOptions, Obj.set,
        Obj.empty] using hp
    | num x =>
      simpa [wantedTouch, Prim.isBoolean, Obj.get, Obj.assign, normalizeOptions, Obj.set,
        Obj.empty] using hp
  | obj ob =>
    unfold wantedTouch Obj.get Obj.assign normalizeOptions at *
    cases hob : ob "isTouchActive" with
    | none => simpa [hob, Prim.isBoolean] using hp
    | some v =>
      simp only [hob, Option.getD_some] at hp ⊢
      subst hp
      simp [Prim.isBoolean]

theorem wantedMask_congr (t t' : Tool) (o : Options) (h : t'.options = t.options) :
    wantedMask t' o = wantedMask t o := by
  unfold wantedMask
  rw [h]

theorem wantedTouch_congr (t t' : Tool) (o : Options) (ita : Prim)
    (h : t'.options = t.options) : wantedTouch t' o ita = wantedTouch t o ita := by
  unfold wantedTouch
  rw [h]

theorem options_after_demotion (e : Nat) (s s1 : Store) (hd : DemotionOf e s s1) (e' : Nat)
    (n' : String) (t : Tool) (ht : getToolForElement s e' n' = some t) :
    ∃ t1, getToolForElement s1 e' n' = some t1 ∧ t1.options = t.options := by
  rcases demotion_lookup_some e s s1 hd e' n' t ht with h | ⟨-, h⟩
  · exact ⟨t, h, rfl⟩
  · exact ⟨_, h, rfl⟩

theorem no_holder_after_mask_helper (s s1 : Store) (e : Nat) (tool : Tool) (o : Options)
    (hu : UniqueNames s) (hx : Excl s) (ho : o.isNumberOrObject = true)
    (h1 : _setActiveToolWithMatchingMouseButtonMaskToPassive tool e o s = Except.ok s1)
    (hp : (wantedMask tool o).isPositiveNumber = true) :
    ∀ b ∈ s1.tools, holdsMask e (wantedMask tool o) b = false := by
  have hg : (wantedMask tool o).gtZero = true := by
    cases hw : wantedMask tool o <;> rw [hw] at hp <;>
      simp_all [Prim.isPositiveNumber, Prim.gtZero]
  rw [mask_helper_eq tool e o s ho] at h1
  have h1' := (Except.ok.injEq _ _).mp h1
  intro b hb
  cases hf : s.tools.find? (holdsMask e (wantedMask tool o)) with
  | none =>
    rw [hf] at h1'
    subst h1'
    rw [List.find?_eq_none] at hf
    simpa using hf b hb
  | some found =>
    rw [hf] at h1'
    simp only [hg, if_true] at h1'
    subst h1'
    by_contra hcon
    have hbh : holdsMask e (wantedMask tool o) b = true := by
      cases hh : holdsMask e (wantedMask tool o) b
      · exact absurd hh hcon
      · rfl
    simp only [holdsMask, decide_eq_true_eq] at hbh
    have hfh := List.find?_some hf
    simp only [holdsMask, decide_eq_true_eq] at hfh
    have hfm := List.mem_of_find?_eq_some hf
    unfold setToolPassiveForElement at hb
    rcases mem_setToolModeForElement _ _ e found.name _ _
        { s with log := s.log ++ [Effect.info found.name] } hu b hb with
      ⟨hbs, hnk⟩ | ⟨-, -, t0, -, rfl⟩
    · have hc : maskClash b found :=
        ⟨hbh.1.trans hfh.1.symm, hbh.2.1, hfh.2.1, by rw [hbh.2.2]; exact hp,
          hbh.2.2.trans hfh.2.2.symm⟩
      exact hnk ⟨hbh.1, hx.1 b hbs found hfm hc⟩
    · exact absurd hbh.2.1 (by simp [applyMode])

theorem no_toucher_after_touch_helper (s s1 : Store) (e : Nat) (tool : Tool) (o : Options)
    (ita : Prim) (hu : UniqueNames s) (hx : Excl s) (ho : o.isNumberOrObject = true)
    (h1 : _setActiveToolWithIsTouchActiveToPassive tool e o ita s = Except.ok s1)
    (hp : wantedTouch tool o ita = Prim.bool true) :
    ∀ b ∈ s1.tools, holdsTouch e b = false := by
  rw [touch_helper_eq tool e o ita s ho] at h1
  have h1' := (Except.ok.injEq _ _).mp h1
  simp only [hp, if_true] at h1'
  intro b hb
  cases hf : s.tools.find? (holdsTouch e) with
  | none =>
    rw [hf] at h1'
    subst h1'
    rw [List.find?_eq_none] at hf
    simpa using hf b hb
  | some found =>
    rw [hf] at h1'
    subst h1'
    by_contra hcon
    have hbh : holdsTouch e b = true := by
      cases hh : holdsTouch e b
      · exact absurd hh hcon
      · rfl
    simp only [holdsTouch, decide_eq_true_eq] at hbh
    have hfh := List.find?_some hf
    simp only [holdsTouch, decide_eq_true_eq] at hfh
    have hfm := List.mem_of_find?_eq_some hf
    unfold setToolPassiveForElement at hb
    rcases mem_setToolModeForElement _ _ e found.name _ _ s hu b hb with
      ⟨hbs, hnk⟩ | ⟨-, -, t0, -, rfl⟩
    · have hc : touchClash b found :=
        ⟨hbh.1.trans hfh.1.symm, hbh.2.1, hfh.2.1, hbh.2.2, hfh.2.2⟩
      exact hnk ⟨hbh.1, hx.2 b hbs found hfm hc⟩
    · exact absurd hbh.2.1 (by simp [applyMode])

theorem excl_activate (s : Store) (e : Nat) (n : String) (o : Options) (ita : Prim)
    (hu : UniqueNames s) (hx : Excl s)
    (hmask : ∀ t0, getToolForElement s e n = some t0 → ∀ b ∈ s.tools, b.element = e →
      b.mode = Mode.active →
      (Obj.get (Obj.assign t0.options (normalizeOptions o ita))
        "mouseButtonMask").isPositiveNumber = true →
      Obj.get b.options "mouseButtonMask" =
        Obj.get (Obj.assign t0.options (normalizeOptions o ita)) "mouseButtonMask" → False)
    (htouch : ∀ t0, getToolForElement s e n = some t0 → ∀ b ∈ s.tools, b.element = e →
      b.mode = Mode.active →
      Obj.get (Obj.assign t0.options (normalizeOptions o ita)) "isTouchActive" =
        Prim.bool true →
      Obj.get b.options "isTouchActive" = Prim.bool true → False) :
    Excl (setToolModeForElement Mode.active none e n o ita s) := by
  constructor
  · intro a ha b hb hc
    rcases mem_setToolModeForElement _ _ e n o ita s hu a ha with
      ⟨has, hak⟩ | ⟨hae, han, ta, hta, rfl⟩
    · rcases mem_setToolModeForElement _ _ e n o ita s hu b hb with
        ⟨hbs, hbk⟩ | ⟨hbe, hbn, tb, htb, rfl⟩
      · exact hx.1 a has b hbs hc
      · have hc' := maskClash_symm _ _ hc
        exact absurd (hmask tb htb a has (hc.1.trans hbe) hc.2.1 hc'.2.2.2.1 hc'.2.2.2.2.symm)
          id
    · rcases mem_setToolModeForElement _ _ e n o ita s hu b hb with
        ⟨hbs, hbk⟩ | ⟨hbe, hbn, tb, htb, rfl⟩
      · exact absurd (hmask ta hta b hbs (hc.1.symm.trans hae) hc.2.2.1 hc.2.2.2.1
          hc.2.2.2.2.symm) id
      · exact han.trans hbn.symm
  · intro a ha b hb hc
    rcases mem_setToolModeForElement _ _ e n o ita s hu a ha with
      ⟨has, hak⟩ | ⟨hae, han, ta, hta, rfl⟩
    · rcases mem_setToolModeForElement _ _ e n o ita s hu b hb with
        ⟨hbs, hbk⟩ | ⟨hbe, hbn, tb, htb, rfl⟩
      · exact hx.2 a has b hbs hc
      · exact absurd (htouch tb htb a has (hc.1.trans hbe) hc.2.1 hc.2.2.2.2 hc.2.2.2.1) id
    · rcases mem_setToolModeForElement _ _ e n o ita s hu b hb with
        ⟨hbs, hbk⟩ | ⟨hbe, hbn, tb, htb, rfl⟩
      · exact absurd (htouch ta hta b hbs (hc.1.symm.trans hae) hc.2.2.1 hc.2.2.2.1
          hc.2.2.2.2) id
      · exact han.trans hbn.symm

theorem invariant_activeOrSame (s : Store) (e : Nat) (n : String) (o : Options) (ita : Prim)
    (ho : o.isNumberOrObject = true) (hu : UniqueNames s) (hx : Excl s) :
    UniqueNames (activeOrSame e n o ita s) ∧ Excl (activeOrSame e n o ita s) := by
  cases hT : getToolForElement s e n with
  | none =>
    have hs : activeOrSame e n o ita s = setToolModeForElement Mode.active none e n o ita s := by
      unfold activeOrSame setToolActiveForElement
      rw [hT]
    rw [hs]
    refine ⟨uniqueNames_setToolModeForElement _ _ _ _ _ _ _ hu, ?_⟩
    refine excl_activate s e n o ita hu hx ?_ ?_
    · intro t0 ht0; rw [hT] at ht0; cases ht0
    · intro t0 ht0; rw [hT] at ht0; cases ht0
  | some T =>
    obtain ⟨s1, s2, d1, d2, h1, h2, h⟩ := active_unfold s e n T o ita hT ho
    have hs : activeOrSame e n o ita s =
        setToolModeForElement Mode.active none e n o ita s2 := by
      unfold activeOrSame
      rw [h]
    have hu1 := uniqueNames_demotion e s s1 d1 hu
    have hu2 := uniqueNames_demotion e s1 s2 d2 hu1
    have hx1 := excl_demotion e s s1 d1 hu hx
    have hx2 := excl_demotion e s1 s2 d2 hu1 hx1
    obtain ⟨t1, ht1, ho1⟩ := options_after_demotion e s s1 d1 e n T hT
    obtain ⟨t2, ht2, ho2⟩ := options_after_demotion e s1 s2 d2 e n t1 ht1
    obtain ⟨-, hTe, hTn⟩ := getTool_mem s e n T hT
    have hderef : (deref s1 T).options = T.options := by
      unfold deref
      rw [hTe, hTn, ht1]
      exact ho1
    rw [hs]
    refine ⟨uniqueNames_setToolModeForElement _ _ _ _ _ _ _ hu2, ?_⟩
    refine excl_activate s2 e n o ita hu2 hx2 ?_ ?_
    · intro t0 ht0 b hb hbe hba hpos hbm
      rw [ht2] at ht0
      cases ht0
      rw [ho2, ho1] at hpos hbm
      have hw := wantedMask_final T o ita ho hpos
      have hb1 := active_mem_of_demotion e s1 s2 d2 hu1 b hb hba
      have hno := no_holder_after_mask_helper s s1 e T o hu hx ho h1 (by rw [hw]; exact hpos)
        b hb1
      rw [hw] at hno
      simp [holdsMask, hbe, hba, hbm] at hno
    · intro t0 ht0 b hb hbe hba hpos hbm
      rw [ht2] at ht0
      cases ht0
      rw [ho2, ho1] at hpos
      have hw := wantedTouch_final T o ita ho hpos
      have hno := no_toucher_after_touch_helper s1 s2 e (deref s1 T) o ita hu1 hx1 ho h2
        (by rw [wantedTouch_congr T (deref s1 T) o ita hderef]; exact hw) b hb
      simp [holdsTouch, hbe, hba, hbm] at hno

theorem invariant_fold (step : Nat → Store → Store) (I : Store → Prop)
    (hstep : ∀ e s, I s → I (step e s)) (l : List Nat) :
    ∀ s, I s → I (l.foldl (fun acc e => step e acc) s) := by
  induction l with
  | nil => intro s hs; exact hs
  | cons a l ih =>
    intro s hs
    rw [List.foldl_cons]
    exact ih _ (hstep a s hs)

theorem invariant_setToolMode (mode : Mode) (hm : mode ≠ Mode.active) (ev : Option String)
    (n : String) (o : Options) (ita : Prim) (s : Store) (hu : UniqueNames s) (hx : Excl s) :
    UniqueNames (setToolMode mode ev n o ita s) ∧ Excl (setToolMode mode ev n o ita s) := by
  unfold setToolMode
  exact invariant_fold (fun e acc => setToolModeForElement mode ev e n o ita acc)
    (fun s => UniqueNames s ∧ Excl s)
    (fun e s hs => ⟨uniqueNames_setToolModeForElement _ _ _ _ _ _ _ hs.1,
      excl_inactive_mode mode hm ev e n o ita s hs.1 hs.2⟩) s.enabledElements s ⟨hu, hx⟩

theorem setToolActive_eq_fold (n : String) (o : Options) (ita : Prim) (s : Store)
    (ho : o.isNumberOrObject = true) :
    setToolActive n o ita s =
      Except.ok (s.enabledElements.foldl (fun acc e => activeOrSame e n o ita acc) s) := by
  unfold setToolActive
  have hf : (fun acc e => setToolActiveForElement e n o ita acc) =
      (fun acc e => (Except.ok (activeOrSame e n o ita acc) : Except JSError Store)) := by
    funext acc e
    exact active_eq_activeOrSame acc e n o ita ho
  rw [hf]
  exact foldlM_ok (fun acc e => activeOrSame e n o ita acc) _ s

/-- C8. Mutual exclusion is kept by the eight public operations. If tool names
are unique per element and no two tools of an element are both active with
the same mask `m > 0`, nor both active with `isTouchActive` `true`, then for
every tool name, every options value that is a number or an object and every
fourth argument, each operation returns and the resulting store satisfies
mutual exclusion again. -/
theorem mutual_exclusion_preserved (s : Store) (e : Nat) (n : String) (o : Options)
    (ita : Prim) (hu : UniqueNames s) (hx : MutualExclusion s)
    (ho : o.isNumberOrObject = true) :
    (∃ s', setToolActiveForElement e n o ita s = Except.ok s' ∧ MutualExclusion s') ∧
    MutualExclusion (setToolPassiveForElement e n o ita s) ∧
    MutualExclusion (setToolEnabledForElement e n o ita s) ∧
    MutualExclusion (setToolDisabledForElement e n o ita s) ∧
    (∃ s', setToolActive n o ita s = Except.ok s' ∧ MutualExclusion s') ∧
    MutualExclusion (setToolPassive n o ita s) ∧
    MutualExclusion (setToolEnabled n o ita s) ∧
    MutualExclusion (setToolDisabled n o ita s) := by
  have hx' := excl_of_mutualExclusion s hx
  have hfe : ∀ mode ev, mode ≠ Mode.active →
      MutualExclusion (setToolModeForElement mode ev e n o ita s) := fun mode ev hm =>
    mutualExclusion_of_excl _ (uniqueNames_setToolModeForElement _ _ _ _ _ _ _ hu)
      (excl_inactive_mode mode hm ev e n o ita s hu hx')
  have hall : ∀ mode ev, mode ≠ Mode.active →
      MutualExclusion (setToolMode mode ev n o ita s) := fun mode ev hm =>
    mutualExclusion_of_excl _ (invariant_setToolMode mode hm ev n o ita s hu hx').1
      (invariant_setToolMode mode hm ev n o ita s hu hx').2
  refine ⟨⟨_, active_eq_activeOrSame s e n o ita ho, ?_⟩, hfe _ _ (by decide),
    hfe _ _ (by decide), hfe _ _ (by decide),
    ⟨_, setToolActive_eq_fold n o ita s ho, ?_⟩, hall _ _ (by decide), hall _ _ (by decide),
    hall _ _ (by decide)⟩
  · exact mutualExclusion_of_excl _ (invariant_activeOrSame s e n o ita ho hu hx').1
      (invariant_activeOrSame s e n o ita ho hu hx').2
  · have := invariant_fold (fun e acc => activeOrSame e n o ita acc)
      (fun s => UniqueNames s ∧ Excl s)
      (fun e s hs => invariant_activeOrSame s e n o ita ho hs.1 hs.2) s.enabledElements s
      ⟨hu, hx'⟩
    exact mutualExclusion_of_excl _ this.1 this.2

/-- C8, at the store `holderStore`: `Length` holds mask 1 and `Wwwc` is
activated with mask 1, on the element and over all enabled elements. -/
theorem mutual_exclusion_preserved_witness :
    (∃ s', setToolActiveForElement 0 "Wwwc" (Options.num 1) Prim.undefined holderStore =
      Except.ok s' ∧ MutualExclusion s') ∧
    (∃ s', setToolActive "Wwwc" (Options.num 1) Prim.undefined holderStore =
      Except.ok s' ∧ MutualExclusion s') :=
  have h := mutual_exclusion_preserved holderStore 0 "Wwwc" (Options.num 1) Prim.undefined
    (by simp [UniqueNames, holderStore, sampleTool])
    (by simp [MutualExclusion, maskClash, touchClash, holderStore, sampleTool])
    rfl
  ⟨h.1, h.2.2.2.2.1⟩

/-! ## The frame of a mode change -/

theorem updateTool_forall₂ (e : Nat) (n : String) (f : Tool → Tool) (l : List Tool) :
    List.Forall₂ (fun t t' => t' = t ∨ (t.element = e ∧ t.name = n ∧ t' = f t)) l
      (updateTool e n f l) := by
  induction l with
  | nil => exact List.Forall₂.nil
  | cons t l ih =>
    unfold updateTool
    by_cases h : t.element = e ∧ t.name = n
    · rw [if_pos h]
      refine List.Forall₂.cons (Or.inr ⟨h.1, h.2, rfl⟩) ?_
      exact List.forall₂_same.mpr (fun x _ => Or.inl rfl)
    · rw [if_neg h]
      exact List.Forall₂.cons (Or.inl rfl) ih

theorem forall₂_of_mem {R S : Tool → Tool → Prop} {l l' : List Tool}
    (h : List.Forall₂ R l l') (himp : ∀ a b, a ∈ l → R a b → S a b) :
    List.Forall₂ S l l' := by
  induction h with
  | nil => exact List.Forall₂.nil
  | cons hab _ ih =>
    refine List.Forall₂.cons (himp _ _ (List.mem_cons_self _ _) hab) (ih ?_)
    intro a b ha hr
    exact himp a b (List.mem_cons_of_mem _ ha) hr

theorem forall₂_chain {R S : Tool → Tool → Prop} {l1 l2 l3 : List Tool}
    (h : List.Forall₂ R l1 l2) :
    List.Forall₂ S l2 l3 → List.Forall₂ (fun a c => ∃ b, R a b ∧ S b c) l1 l3 := by
  induction h generalizing l3 with
  | nil =>
    intro h2
    cases h2
    exact List.Forall₂.nil
  | cons hab _ ih =>
    intro h2
    cases h2 with
    | cons hbc h2' => exact List.Forall₂.cons ⟨_, hab, hbc⟩ (ih h2')

theorem unique_of_mem (s : Store) (hu : UniqueNames s) (a b : Tool) (ha : a ∈ s.tools)
    (hb : b ∈ s.tools) (he : a.element = b.element) (hn : a.name = b.name) : a = b := by
  have h1 := mem_getTool s hu a ha
  have h2 := mem_getTool s hu b hb
  rw [he, hn, h2] at h1
  exact (Option.some.inj h1).symm

theorem demote_step (s : Store) (e : Nat) (found : Tool) (lg : List Effect)
    (hu : UniqueNames s) (hf : found ∈ s.tools) (hfe : found.element = e)
    (hfa : found.mode = Mode.active) :
    List.Forall₂ (DemotedNamed e found.name) s.tools
      (setToolPassiveForElement e found.name Options.undefined Prim.undefined
        { s with log := lg }).tools := by
  unfold setToolPassiveForElement
  rw [tools_setToolModeForElement]
  refine forall₂_of_mem (updateTool_forall₂ e found.name _ s.tools) ?_
  intro a b ha hr
  rcases hr with rfl | ⟨hae, han, rfl⟩
  · exact Or.inl rfl
  · have : a = found := unique_of_mem s hu a found ha hf (hae.trans hfe.symm) han
    subst this
    exact Or.inr ⟨hae, rfl, hfa, rfl⟩

theorem forall₂_refl_demoted (e : Nat) (x : String) (l : List Tool) :
    List.Forall₂ (DemotedNamed e x) l l :=
  List.forall₂_same.mpr (fun _ _ => Or.inl rfl)

theorem mask_step (s s1 : Store) (e : Nat) (tool : Tool) (o : Options)
    (hu : UniqueNames s) (ho : o.isNumberOrObject = true)
    (h1 : _setActiveToolWithMatchingMouseButtonMaskToPassive tool e o s = Except.ok s1) :
    ∃ x, List.Forall₂ (DemotedNamed e x) s.tools s1.tools := by
  rw [mask_helper_eq tool e o s ho] at h1
  have h1' := (Except.ok.injEq _ _).mp h1
  cases hf : s.tools.find? (holdsMask e (wantedMask tool o)) with
  | none =>
    rw [hf] at h1'
    subst h1'
    exact ⟨"", forall₂_refl_demoted e "" _⟩
  | some found =>
    rw [hf] at h1'
    by_cases hg : (wantedMask tool o).gtZero = true
    · simp only [hg, if_true] at h1'
      subst h1'
      have hp := List.find?_some hf
      simp only [holdsMask, decide_eq_true_eq] at hp
      exact ⟨found.name, demote_step s e found _ hu (List.mem_of_find?_eq_some hf) hp.1 hp.2.1⟩
    · simp only [hg, Bool.false_eq_true, if_false] at h1'
      subst h1'
      exact ⟨"", forall₂_refl_demoted e "" _⟩

theorem touch_step (s s1 : Store) (e : Nat) (tool : Tool) (o : Options) (ita : Prim)
    (hu : UniqueNames s) (ho : o.isNumberOrObject = true)
    (h1 : _setActiveToolWithIsTouchActiveToPassive tool e o ita s = Except.ok s1) :
    ∃ x, List.Forall₂ (DemotedNamed e x) s.tools s1.tools := by
  rw [touch_helper_eq tool e o ita s ho] at h1
  have h1' := (Except.ok.injEq _ _).mp h1
  by_cases hw : wantedTouch tool o ita = Prim.bool true
  · simp only [hw, if_true] at h1'
    cases hf : s.tools.find? (holdsTouch e) with
    | none =>
      rw [hf] at h1'
      subst h1'
      exact ⟨"", forall₂_refl_demoted e "" _⟩
    | some found =>
      rw [hf] at h1'
      subst h1'
      have hp := List.find?_some hf
      simp only [holdsTouch, decide_eq_true_eq] at hp
      exact ⟨found.name, demote_step s e found s.log hu (List.mem_of_find?_eq_some hf)
        hp.1 hp.2.1⟩
  · simp only [hw, if_false] at h1'
    subst h1'
    exact ⟨"", forall₂_refl_demoted e "" _⟩

theorem active_forall₂ (s : Store) (e : Nat) (n : String) (o : Options) (ita : Prim)
    (hu : UniqueNames s) (ho : o.isNumberOrObject = true) :
    ∃ x y, List.Forall₂ (fun t t' => (t.element = e ∧ t.name = n) ∨ t' = t ∨
        (t.element = e ∧ (t.name = x ∨ t.name = y) ∧ Demoted t t'))
      s.tools (activeOrSame e n o ita s).tools := by
  cases hT : getToolForElement s e n with
  | none =>
    have hs : activeOrSame e n o ita s = setToolModeForElement Mode.active none e n o ita s := by
      unfold activeOrSame setToolActiveForElement
      rw [hT]
    rw [hs, tools_setToolModeForElement]
    refine ⟨"", "", List.Forall₂.imp ?_ (updateTool_forall₂ e n _ s.tools)⟩
    intro a b hr
    rcases hr with rfl | ⟨hae, han, -⟩
    · exact Or.inr (Or.inl rfl)
    · exact Or.inl ⟨hae, han⟩
  | some T =>
    obtain ⟨s1, s2, d1, d2, h1, h2, h⟩ := active_unfold s e n T o ita hT ho
    have hs : activeOrSame e n o ita s =
        setToolModeForElement Mode.active none e n o ita s2 := by
      unfold activeOrSame
      rw [h]
    have hu1 := uniqueNames_demotion e s s1 d1 hu
    obtain ⟨x, hx⟩ := mask_step s s1 e T o hu ho h1
    obtain ⟨y, hy⟩ := touch_step s1 s2 e (deref s1 T) o ita hu1 ho h2
    rw [hs, tools_setToolModeForElement]
    refine ⟨x, y, List.Forall₂.imp ?_
      (forall₂_chain (forall₂_chain hx hy) (updateTool_forall₂ e n _ s2.tools))⟩
    rintro a d ⟨c, ⟨b, hab, hbc⟩, hcd⟩
    by_cases hk : a.element = e ∧ a.name = n
    · exact Or.inl hk
    · right
      rcases hab with rfl | ⟨hae, hax, haa, rfl⟩
      · rcases hbc with rfl | ⟨hbe, hby, hba, rfl⟩
        · rcases hcd with rfl | ⟨hce, hcn, -⟩
          · exact Or.inl rfl
          · exact absurd ⟨hce, hcn⟩ hk
        · rcases hcd with rfl | ⟨hce, hcn, -⟩
          · exact Or.inr ⟨hbe, Or.inr hby, hba, rfl⟩
          · exact absurd ⟨hce, hcn⟩ hk
      · rcases hbc with rfl | ⟨hbe, hby, hba, rfl⟩
        · rcases hcd with rfl | ⟨hce, hcn, -⟩
          · exact Or.inr ⟨hae, Or.inl hax, haa, rfl⟩
          · exact absurd ⟨hce, hcn⟩ hk
        · cases hba

theorem count_key_le_one (e : Nat) (x : String) (l : List Tool)
    (hu : l.Pairwise (fun a b => ¬ (a.element = b.element ∧ a.name = b.name))) :
    l.countP (fun t => decide (t.element = e ∧ t.name = x)) ≤ 1 := by
  induction l with
  | nil => simp
  | cons a l ih =>
    rw [List.pairwise_cons] at hu
    by_cases h : a.element = e ∧ a.name = x
    · rw [List.countP_cons_of_pos _ _ (by simpa using h)]
      have hz : l.countP (fun t => decide (t.element = e ∧ t.name = x)) = 0 := by
        rw [List.countP_eq_zero]
        intro b hb hbk
        simp only [decide_eq_true_eq] at hbk
        exact hu.1 b hb ⟨h.1.trans hbk.1.symm, h.2.trans hbk.2.symm⟩
      rw [hz]
    · rw [List.countP_cons_of_neg _ _ (by simpa using h)]
      exact ih hu.2

theorem count_changed_le (e : Nat) (n x y : String) (l l' : List Tool)
    (h : List.Forall₂ (fun t t' => (t.element = e ∧ t.name = n) ∨ t' = t ∨
      (t.element = e ∧ (t.name = x ∨ t.name = y) ∧ Demoted t t')) l l') :
    (l.zip l').countP (fun p => decide (¬ (p.1.element = e ∧ p.1.name = n) ∧
        p.2.mode ≠ p.1.mode)) ≤
      l.countP (fun t => decide (t.element = e ∧ t.name = x)) +
        l.countP (fun t => decide (t.element = e ∧ t.name = y)) := by
  induction h with
  | nil => simp
  | @cons a b l l' hab _ ih =>
    rw [List.zip_cons_cons, List.countP_cons, List.countP_cons, List.countP_cons]
    by_cases hc : ¬ (a.element = e ∧ a.name = n) ∧ b.mode ≠ a.mode
    · rcases hab with hk | rfl | ⟨hae, hxy, -, -⟩
      · exact absurd hk hc.1
      · exact absurd rfl hc.2
      · rcases hxy with hx | hy
        · simp only [hae, hx, and_self, decide_True, if_true]
          split <;> omega
        · simp only [hae, hy, and_self, decide_True, if_true]
          split <;> omega
    · simp only [hc, decide_False, Bool.false_eq_true, if_false]
      split <;> split <;> omega

/-- C10 fails as stated when two tools of an element share a name. On
`duplicateNameStore`, `setToolActiveForElement(0, 'Wwwc', 1)` finds the second
`Length` (active, mask 1) and demotes by name, which reaches the first
`Length`: a tool other than the named one goes from `enabled` to `passive`,
so it was not active before the call. -/
theorem duplicate_name_breaks_frame :
    duplicateNameStore.tools.map (fun t => (t.element, t.name, t.mode)) =
      [(0, "Length", Mode.enabled), (0, "Length", Mode.active), (0, "Wwwc", Mode.passive)] ∧
    ∃ s', setToolActiveForElement 0 "Wwwc" (Options.num 1) Prim.undefined duplicateNameStore =
        Except.ok s' ∧
      s'.tools.map (fun t => (t.element, t.name, t.mode)) =
        [(0, "Length", Mode.passive), (0, "Length", Mode.active), (0, "Wwwc", Mode.active)] :=
  ⟨by decide, _, rfl, by decide⟩

/-- C10, amended. In a registry whose tool names are unique per element, for
options that are a number or an object: `setToolPassiveForElement`,
`setToolEnabledForElement` and `setToolDisabledForElement` leave every tool
other than the one named on `e` as it was; `setToolActiveForElement` returns
and leaves every tool as it was, except the one named on `e` and tools on
`e` that it demotes: such a tool was active before and is passive after, its
options unchanged. At most two tools other than the named one change mode. -/
theorem frame_of_mode_change (s : Store) (e : Nat) (n : String) (o : Options) (ita : Prim)
    (hu : UniqueNames s) (ho : o.isNumberOrObject = true) :
    List.Forall₂ (fun t t' => (t.element = e ∧ t.name = n) ∨ t' = t) s.tools
      (setToolPassiveForElement e n o ita s).tools ∧
    List.Forall₂ (fun t t' => (t.element = e ∧ t.name = n) ∨ t' = t) s.tools
      (setToolEnabledForElement e n o ita s).tools ∧
    List.Forall₂ (fun t t' => (t.element = e ∧ t.name = n) ∨ t' = t) s.tools
      (setToolDisabledForElement e n o ita s).tools ∧
    ∃ s', setToolActiveForElement e n o ita s = Except.ok s' ∧
      List.Forall₂ (fun t t' => (t.element = e ∧ t.name = n) ∨ t' = t ∨
        (t.element = e ∧ Demoted t t')) s.tools s'.tools ∧
      (s.tools.zip s'.tools).countP (fun p => decide (¬ (p.1.element = e ∧ p.1.name = n) ∧
        p.2.mode ≠ p.1.mode)) ≤ 2 := by
  have hfe : ∀ mode ev, List.Forall₂ (fun t t' => (t.element = e ∧ t.name = n) ∨ t' = t)
      s.tools (setToolModeForElement mode ev e n o ita s).tools := by
    intro mode ev
    rw [tools_setToolModeForElement]
    refine List.Forall₂.imp ?_ (updateTool_forall₂ e n _ s.tools)
    intro a b hr
    rcases hr with rfl | ⟨hae, han, -⟩
    · exact Or.inr rfl
    · exact Or.inl ⟨hae, han⟩
  refine ⟨hfe _ _, hfe _ _, hfe _ _, _, active_eq_activeOrSame s e n o ita ho, ?_, ?_⟩
  · obtain ⟨x, y, h⟩ := active_forall₂ s e n o ita hu ho
    refine List.Forall₂.imp ?_ h
    intro a b hr
    rcases hr with hk | rfl | ⟨hae, -, hd⟩
    · exact Or.inl hk
    · exact Or.inr (Or.inl rfl)
    · exact Or.inr (Or.inr ⟨hae, hd⟩)
  · obtain ⟨x, y, h⟩ := active_forall₂ s e n o ita hu ho
    have h1 := count_changed_le e n x y _ _ h
    have h2 := count_key_le_one e x s.tools hu
    have h3 := count_key_le_one e y s.tools hu
    omega

/-- C10 amended, at the store `holderStore`: activating `Wwwc` with mask 1
demotes `Length` and changes nothing else. -/
theorem frame_of_mode_change_witness :
    ∃ s', setToolActiveForElement 0 "Wwwc" (Options.num 1) Prim.undefined holderStore =
        Except.ok s' ∧
      List.Forall₂ (fun t t' => (t.element = 0 ∧ t.name = "Wwwc") ∨ t' = t ∨
        (t.element = 0 ∧ Demoted t t')) holderStore.tools s'.tools ∧
      (holderStore.tools.zip s'.tools).countP
        (fun p => decide (¬ (p.1.element = 0 ∧ p.1.name = "Wwwc") ∧
          p.2.mode ≠ p.1.mode)) ≤ 2 :=
  (frame_of_mode_change holderStore 0 "Wwwc" (Options.num 1) Prim.undefined
    (by simp [UniqueNames, holderStore, sampleTool]) rfl).2.2.2

end CornerstoneTools
